import Mathlib

/-!
# abt-io : offloading blocking file-descriptor calls onto an Argobots pool

Shallow embedding of `src/abt-io.c`.

* Machine integers are `Int`; a store into an `int` or `ssize_t` object goes
  through `wrapSigned 32` or `wrapSigned 64` (LP64).
* Pointers are `Nat` addresses, `none` is `NULL`.
* The Argobots runtime, libc `malloc` and the kernel are not part of the
  repository: their answers are read from an `Env` record, one field per
  external call site.
* Every externally visible action is appended to `World.trace`.
* The readiness listener has its own state (`ListenerState`); the results of
  its successive `epoll_wait` calls are given as a list of `PollResult`.
-/

set_option autoImplicit false

namespace AbtIo

/-! ## Constants of the platform headers -/

/-- Return code `ABT_SUCCESS` of the Argobots runtime. -/
def ABT_SUCCESS : Int := 0

/-- Linux `ENOENT`. -/
def ENOENT : Int := 2

/-- Linux `ENOMEM`. -/
def ENOMEM : Int := 12

/-- Linux `EINVAL`. -/
def EINVAL : Int := 22

/-- Linux `ENOSYS`. -/
def ENOSYS : Int := 38

/-- Two's complement reduction of `x` to a signed integer of `bits` bits. -/
def wrapSigned (bits : Nat) (x : Int) : Int :=
  (x + 2 ^ (bits - 1)) % 2 ^ bits - 2 ^ (bits - 1)

/-! ## Operation records -/

/-- The argument fields of the eight `struct abt_io_*_state` records; the
constructor says which of the eight records (and so which task body and which
issue procedure) is meant.  Pointer arguments are addresses. -/
inductive Call where
  | OPEN (pathname : Nat) (flags : Int) (mode : Nat)
  | CLOSE (fd : Int)
  | PREAD (fd : Int) (buf : Nat) (count : Nat) (offset : Int)
  | PWRITE (fd : Int) (buf : Nat) (count : Nat) (offset : Int)
  | READ (fd : Int) (buf : Nat) (count : Nat)
  | WRITE (fd : Int) (buf : Nat) (count : Nat)
  | MKOSTEMP (template : Nat) (flags : Int)
  | UNLINK (pathname : Nat)
  deriving DecidableEq, Repr

/-- Width of the result slot: `int *ret` for open, close, mkostemp and unlink,
`ssize_t *ret` for pread, pwrite, read and write. -/
def Call.slotBits : Call → Nat
  | .OPEN _ _ _ => 32
  | .CLOSE _ => 32
  | .PREAD _ _ _ _ => 64
  | .PWRITE _ _ _ _ => 64
  | .READ _ _ _ => 64
  | .WRITE _ _ _ => 64
  | .MKOSTEMP _ _ => 32
  | .UNLINK _ => 32

/-- What the kernel answers to one call: the return value and the `errno`
that is current right after the call. -/
structure SysRet where
  r : Int
  errno : Int
  deriving DecidableEq, Repr

/-- The record `struct abt_io_*_state` once its fields are assigned. -/
structure OpState where
  /-- field `ret`: address of the caller-owned result slot -/
  ret : Nat
  /-- the argument fields -/
  call : Call
  /-- field `eventual`; `none` is `NULL` -/
  eventual : Option Nat
  deriving DecidableEq, Repr

/-- The function pointers stored in `abt_io_op.free_fn`; the source only ever
stores libc `free`. -/
inductive FreeFn where
  | libc_free
  deriving DecidableEq, Repr

/-- The handle envelope `struct abt_io_op`, together with the address it was
allocated at.  A field is `none` while it has not been assigned. -/
structure abt_io_op where
  addr : Nat
  e : Option Nat
  state : Option Nat
  free_fn : Option FreeFn
  deriving DecidableEq, Repr

/-! ## Observable actions -/

/-- Which code performs a store into a result slot. -/
inductive Writer where
  /-- an issue procedure, through its parameter `ret` -/
  | issue
  /-- a task body, through `state->ret` -/
  | task
  deriving DecidableEq, Repr

/-- One externally visible action. -/
inductive Event where
  /-- a store through the result-slot pointer (`*ret = v`, `*state->ret = v`),
  labelled with the code that performs it -/
  | slot_write (who : Writer) (addr : Nat) (v : Int)
  /-- the libc call made by a task body -/
  | syscall (c : Call)
  /-- `ABT_eventual_create` returned `ABT_SUCCESS` with this handle -/
  | eventual_create (e : Nat)
  /-- `ABT_eventual_set(e, NULL, 0)` -/
  | eventual_set (e : Option Nat)
  /-- `ABT_eventual_wait(e, NULL)` -/
  | eventual_wait (e : Option Nat)
  /-- `ABT_eventual_free(&e)` -/
  | eventual_free (e : Nat)
  /-- `ABT_task_create(pool, fn, pstate, NULL)` returned `ABT_SUCCESS` -/
  | task_create (pool : Nat) (pstate : Nat)
  /-- libc `free(p)` -/
  | free (p : Nat)
  /-- `ABT_xstream_join(x)` -/
  | xstream_join (x : Nat)
  /-- `ABT_xstream_free(&x)` -/
  | xstream_free (x : Nat)
  /-- a release of a pool; no function of the source performs one -/
  | pool_free (pool : Nat)
  deriving DecidableEq, Repr

/-- A task sitting in a pool: the record its body will be called with. -/
structure Task where
  pool : Nat
  arg : OpState
  deriving DecidableEq, Repr

/-- The state the embedded functions act on. -/
structure World where
  /-- integer objects (result slots) by address -/
  mem : Nat → Int
  /-- tasks created and not yet executed, oldest first -/
  pending : List Task
  /-- the actions so far, oldest first -/
  trace : List Event

/-- A world with the given memory, nothing in flight and nothing observed. -/
def World.init (mem : Nat → Int) : World :=
  { mem := mem, pending := [], trace := [] }

/-- Append an action to the trace. -/
def World.emit (w : World) (ev : Event) : World :=
  { w with trace := w.trace ++ [ev] }

/-- A store `*p = v` through a result-slot pointer of the given width. -/
def World.store (w : World) (who : Writer) (bits : Nat) (p : Nat) (v : Int) : World :=
  { w with
    mem := fun a => if a = p then wrapSigned bits v else w.mem a
    trace := w.trace ++ [Event.slot_write who p (wrapSigned bits v)] }

/-- An execution stream of the runtime, as far as the source looks at it. -/
structure Xstream where
  /-- the runtime handle `ABT_xstream` -/
  handle : Nat
  /-- the pool the stream takes its work from (what
  `ABT_xstream_get_main_pools(x, 1, &pool)` reports) -/
  main_pool : Nat
  deriving DecidableEq, Repr

/-- The answers of everything outside the repository, one field per call
site. -/
structure Env where
  /-- address of the automatic variable `state` of an issue procedure -/
  stack_state : Nat
  /-- address of the automatic variable `ret` of a blocking wrapper -/
  stack_ret : Nat
  /-- indeterminate initial value of an uninitialised automatic `int` -/
  indeterminate : Int
  /-- `malloc(sizeof(*pstate))` -/
  malloc_pstate : Option Nat
  /-- `malloc(sizeof(*op))` -/
  malloc_op : Option Nat
  /-- `ABT_eventual_create`: return code, and the handle stored on success;
  on failure the output argument is left as it was -/
  eventual_create : Int × Nat
  /-- `ABT_task_create`: return code -/
  task_create : Int
  /-- `ABT_eventual_wait`: return code -/
  eventual_wait : Int
  /-- whether the scheduler had run the pending tasks when a wait fails -/
  ran_before_failed_wait : Bool
  /-- the kernel -/
  sys : Call → SysRet
  /-- `malloc(sizeof(*aid))` -/
  malloc_aid : Option Nat
  /-- `ABT_xstream_self`: return code and the calling stream -/
  xstream_self : Int × Xstream
  /-- `ABT_xstream_get_main_pools`: return code (the pool reported on success
  is the main pool of the stream asked about) -/
  get_main_pools : Int
  /-- `malloc(backing_thread_count * sizeof(*progress_xstreams))` -/
  malloc_xstreams : Option Nat
  /-- `ABT_snoozer_xstream_create`: return code, the shared pool it creates,
  and the handle of the i-th stream it creates on that pool -/
  snoozer_xstream_create : Int × Nat × (Nat → Nat)

/-! ## Task bodies -/

/-- The eight task bodies `abt_io_open_fn`, `abt_io_pread_fn`,
`abt_io_pwrite_fn`, `abt_io_mkostemp_fn`, `abt_io_unlink_fn`,
`abt_io_close_fn`, `abt_io_read_fn`, `abt_io_write_fn`.  They are the same
three statements around a different libc call; `state.call` selects the call
(for mkostemp: `mkostemp` or, without `HAVE_MKOSTEMP`, `mkstemp`). -/
def abt_io_fn (env : Env) (state : OpState) (w : World) : World :=
  let bits := state.call.slotBits
  -- *state->ret = open(state->pathname, state->flags, state->mode);
  let res := env.sys state.call
  let w := w.emit (Event.syscall state.call)
  let w := w.store Writer.task bits state.ret res.r
  -- if(*state->ret < 0) *state->ret = -errno;
  let w :=
    if w.mem state.ret < 0 then w.store Writer.task bits state.ret (wrapSigned 32 (-res.errno))
    else w
  -- ABT_eventual_set(state->eventual, NULL, 0);
  w.emit (Event.eventual_set state.eventual)

/-- A value of the signed integer type of `bits` bits. -/
def inRange (bits : Nat) (x : Int) : Prop :=
  -(2 ^ (bits - 1)) ≤ x ∧ x < 2 ^ (bits - 1)

instance (bits : Nat) (x : Int) : Decidable (inRange bits x) := by
  unfold inRange; infer_instance

/-! ## Issue procedures -/

/-- How a call of an embedded C function ends. -/
inductive Outcome (α : Type) where
  /-- the function returned `v` -/
  | returned (v : α) (w : World)
  /-- the function read a field through a `NULL` record pointer (undefined
  behaviour; the world is the one reached just before the read) -/
  | null_deref (w : World)

/-- The value returned, if the call returned. -/
def Outcome.value? {α : Type} : Outcome α → Option α
  | .returned v _ => some v
  | .null_deref _ => none

/-- The world at the end of the call (at the faulting read, for a fault). -/
def Outcome.world {α : Type} : Outcome α → World
  | .returned _ w => w
  | .null_deref w => w

/-- Whether the call ended in a read through a `NULL` record pointer. -/
def Outcome.faulted {α : Type} : Outcome α → Bool
  | .returned _ _ => false
  | .null_deref _ => true

/-- Run every pending task body, oldest first. -/
def run_pending (env : Env) (w : World) : World :=
  w.pending.foldl (fun acc t => abt_io_fn env t.arg acc) { w with pending := [] }

/-- The runtime call `ABT_eventual_wait(e, NULL)`.  It returns `ABT_SUCCESS`
only after the eventual was set, that is after the task bodies ran; when it
fails the tasks may or may not have run before it returned. -/
def ABT_eventual_wait (env : Env) (e : Option Nat) (w : World) : Int × World :=
  let w := w.emit (Event.eventual_wait e)
  if env.eventual_wait = ABT_SUCCESS then (env.eventual_wait, run_pending env w)
  else if env.ran_before_failed_wait then (env.eventual_wait, run_pending env w)
  else (env.eventual_wait, w)

/-- The `err:` label shared by the eight issue procedures.  `pstate` is the
record pointer together with the record it points to. -/
def issue_err (op : Option abt_io_op) (pstate : Option (Nat × OpState)) (w : World) :
    Outcome (Int × Option abt_io_op) :=
  -- if (pstate->eventual != NULL) ABT_eventual_free(&pstate->eventual);
  match pstate with
  | none => Outcome.null_deref w
  | some (p, state) =>
    let w := match state.eventual with
      | some e => w.emit (Event.eventual_free e)
      | none => w
    -- if (pstate != NULL && op != NULL) free(pstate);
    let w := if op.isSome then w.emit (Event.free p) else w
    -- return -1;
    Outcome.returned (-1, op) w

/-- The first statement of every issue procedure: the record pointer is the
address of the automatic `state` in synchronous mode and the result of
`malloc` in deferred mode. -/
def pstate_of (env : Env) (op : Option abt_io_op) : Option Nat :=
  -- if (op == NULL) pstate = &state; else pstate = malloc(sizeof(*pstate));
  match op with
  | none => some env.stack_state
  | some _ => env.malloc_pstate

/-- The eight issue procedures `issue_open`, `issue_pread`, `issue_pwrite`,
`issue_mkostemp`, `issue_unlink`, `issue_close`, `issue_read`, `issue_write`:
the same text around a different record type, selected here by `call`.
`op = none` is the synchronous mode (`op == NULL`).  Returns the `int` result
and the handle envelope as the procedure left it. -/
def issue (env : Env) (pool : Nat) (op : Option abt_io_op) (call : Call) (ret : Nat)
    (w : World) : Outcome (Int × Option abt_io_op) :=
  let bits := call.slotBits
  match pstate_of env op with
  | none =>
    -- if (pstate == NULL) { *ret = -ENOMEM; goto err; }
    issue_err op none (w.store Writer.issue bits ret (-ENOMEM))
  | some p =>
    -- *ret = -ENOSYS;
    let w := w.store Writer.issue bits ret (-ENOSYS)
    -- pstate->ret = ret; pstate->... = ...; pstate->eventual = NULL;
    let state : OpState := { ret := ret, call := call, eventual := none }
    -- rc = ABT_eventual_create(0, &pstate->eventual);
    if env.eventual_create.1 ≠ ABT_SUCCESS then
      -- if (rc != ABT_SUCCESS) { *ret = -ENOMEM; goto err; }
      issue_err op (some (p, state)) (w.store Writer.issue bits ret (-ENOMEM))
    else
      let state : OpState := { state with eventual := some env.eventual_create.2 }
      let w := w.emit (Event.eventual_create env.eventual_create.2)
      -- if (op != NULL) op->e = pstate->eventual;
      let op := op.map (fun h => { h with e := state.eventual })
      -- rc = ABT_task_create(pool, abt_io_open_fn, pstate, NULL);
      if env.task_create ≠ ABT_SUCCESS then
        -- if(rc != ABT_SUCCESS) { *ret = -EINVAL; goto err; }
        issue_err op (some (p, state)) (w.store Writer.issue bits ret (-EINVAL))
      else
        let w := { w.emit (Event.task_create pool p) with
                   pending := w.pending ++ [{ pool := pool, arg := state }] }
        match op with
        | none =>
          -- rc = ABT_eventual_wait(pstate->eventual, NULL);
          let rw := ABT_eventual_wait env state.eventual w
          if rw.1 ≠ ABT_SUCCESS then
            -- if (rc != ABT_SUCCESS) { *ret = -EINVAL; goto err; }
            issue_err none (some (p, state)) (rw.2.store Writer.issue bits ret (-EINVAL))
          else
            -- return 0;
            Outcome.returned (0, none) rw.2
        | some h =>
          -- op->e = pstate->eventual; op->state = pstate; op->free_fn = free;
          let h := { h with e := state.eventual, state := some p, free_fn := some FreeFn.libc_free }
          -- return 0;
          Outcome.returned (0, some h) w

/-! ## Wrappers -/

/-- An array of stream handles and its address. -/
structure XArray where
  addr : Nat
  elems : List Xstream
  deriving DecidableEq, Repr

/-- The instance `struct abt_io_instance`, with the address it lives at. -/
structure abt_io_instance where
  addr : Nat
  progress_pool : Nat
  /-- `none` is `NULL` -/
  progress_xstreams : Option XArray
  num_xstreams : Int
  deriving DecidableEq, Repr

/-- Initial value of the automatic `ret` of a blocking wrapper: `abt_io_open`
declares `int ret;`, the seven others `ret = -1`. -/
def Call.retInit (env : Env) : Call → Int
  | .OPEN _ _ _ => env.indeterminate
  | _ => -1

/-- The blocking wrappers `abt_io_open`, `abt_io_pread`, `abt_io_pwrite`,
`abt_io_mkostemp`, `abt_io_unlink`, `abt_io_close`, `abt_io_read`,
`abt_io_write`. -/
def abt_io_blocking (env : Env) (aid : abt_io_instance) (call : Call) (w : World) :
    Outcome Int :=
  -- ssize_t ret = -1;
  let w := { w with mem := fun a => if a = env.stack_ret then call.retInit env else w.mem a }
  -- issue_pread(aid->progress_pool, NULL, fd, buf, count, offset, &ret);
  match issue env aid.progress_pool none call env.stack_ret w with
  | .null_deref w => Outcome.null_deref w
  | .returned _ w =>
    -- return ret;
    Outcome.returned (w.mem env.stack_ret) w

/-- The deferred wrappers `abt_io_open_nb`, `abt_io_pread_nb`,
`abt_io_pwrite_nb`, `abt_io_mkostemp_nb`, `abt_io_unlink_nb`,
`abt_io_close_nb` (the source has none for read and write).  `none` is the
null handle. -/
def abt_io_nb (env : Env) (aid : abt_io_instance) (call : Call) (ret : Nat) (w : World) :
    Outcome (Option abt_io_op) :=
  -- op = malloc(sizeof(*op));
  match env.malloc_op with
  | none =>
    -- if (op == NULL) return NULL;
    Outcome.returned none w
  | some a =>
    let op : abt_io_op := { addr := a, e := none, state := none, free_fn := none }
    -- iret = issue_open(aid->progress_pool, op, pathname, flags, mode, ret);
    match issue env aid.progress_pool (some op) call ret w with
    | .null_deref w => Outcome.null_deref w
    | .returned (iret, op) w =>
      -- if (iret != 0) { free(op); return NULL; } else return op;
      if iret ≠ 0 then Outcome.returned none (w.emit (Event.free a))
      else Outcome.returned op w

/-! ## Handle operations -/

/-- The handle operation `abt_io_op_wait`. -/
def abt_io_op_wait (env : Env) (op : abt_io_op) (w : World) : Int × World :=
  -- ret = ABT_eventual_wait(op->e, NULL);
  let rw := ABT_eventual_wait env op.e w
  -- return ret == ABT_SUCCESS ? 0 : -1;
  (if rw.1 = ABT_SUCCESS then 0 else -1, rw.2)

/-- A call `fn(p)` through a stored release callback. -/
def FreeFn.call : FreeFn → Nat → World → World
  | .libc_free, p, w => w.emit (Event.free p)

/-- The handle operation `abt_io_op_free`.  `none` when it reads a field of
the envelope that was never assigned. -/
def abt_io_op_free (op : abt_io_op) (w : World) : Option World :=
  -- ABT_eventual_free(&op->e);
  match op.e with
  | none => none
  | some e =>
    let w := w.emit (Event.eventual_free e)
    -- op->free_fn(op->state);
    match op.free_fn, op.state with
    | some fn, some p =>
      let w := fn.call p w
      -- free(op);
      some (w.emit (Event.free op.addr))
    | _, _ => none

/-- A deferred operation seen from its caller: the issue procedure on a
fresh envelope, then `abt_io_op_wait` on the handle it filled in.  `none` when
the issue procedure does not return 0. -/
def issue_then_wait (env : Env) (pool : Nat) (h : abt_io_op) (call : Call) (ret : Nat)
    (w : World) : Option (Int × World) :=
  match issue env pool (some h) call ret w with
  | .returned (rc, some h1) w1 => if rc = 0 then some (abt_io_op_wait env h1 w1) else none
  | _ => none

/-! ## Instance lifecycle -/

/-- The constant `sizeof(ABT_xstream)`: a pointer on LP64. -/
def sizeof_xstream : Nat := 8

/-- The function `abt_io_init`.  `none` is `ABT_IO_INSTANCE_NULL`. -/
def abt_io_init (env : Env) (backing_thread_count : Int) (w : World) :
    Option abt_io_instance × World :=
  -- if (backing_thread_count < 0) return NULL;
  if backing_thread_count < 0 then (none, w)
  else
    -- aid = malloc(sizeof(*aid)); if (aid == NULL) return ABT_IO_INSTANCE_NULL;
    match env.malloc_aid with
    | none => (none, w)
    | some a =>
      if backing_thread_count = 0 then
        -- aid->num_xstreams = 0;
        -- ret = ABT_xstream_self(&self_xstream);
        if env.xstream_self.fst ≠ ABT_SUCCESS then (none, w.emit (Event.free a))
        -- ret = ABT_xstream_get_main_pools(self_xstream, 1, &pool);
        else if env.get_main_pools ≠ ABT_SUCCESS then (none, w.emit (Event.free a))
        else
          -- aid->progress_pool = pool; aid->progress_xstreams = progress_xstreams;
          (some { addr := a, progress_pool := env.xstream_self.snd.main_pool,
                  progress_xstreams := none, num_xstreams := 0 }, w)
      else
        -- aid->num_xstreams = backing_thread_count;
        -- progress_xstreams = malloc(backing_thread_count * sizeof(*progress_xstreams));
        let bytes := (backing_thread_count.toNat * sizeof_xstream) % 2 ^ 64
        match env.malloc_xstreams with
        | none => (none, w.emit (Event.free a))
        | some arr =>
          -- ret = ABT_snoozer_xstream_create(backing_thread_count, &pool, progress_xstreams);
          if env.snoozer_xstream_create.fst ≠ ABT_SUCCESS then
            (none, (w.emit (Event.free a)).emit (Event.free arr))
          else
            let pool := env.snoozer_xstream_create.snd.fst
            let elems := (List.range (bytes / sizeof_xstream)).map
              (fun i => ({ handle := env.snoozer_xstream_create.snd.snd i, main_pool := pool } : Xstream))
            (some { addr := a, progress_pool := pool,
                    progress_xstreams := some { addr := arr, elems := elems },
                    num_xstreams := backing_thread_count }, w)

/-- The function `abt_io_init_pool`. -/
def abt_io_init_pool (env : Env) (progress_pool : Nat) (w : World) :
    Option abt_io_instance × World :=
  -- aid = malloc(sizeof(*aid)); if(!aid) return(ABT_IO_INSTANCE_NULL);
  match env.malloc_aid with
  | none => (none, w)
  | some a =>
    (some { addr := a, progress_pool := progress_pool, progress_xstreams := none,
            num_xstreams := 0 }, w)

/-- The loop `for (i = 0; i < aid->num_xstreams; i++)` of `abt_io_finalize`,
at index `i` with `k` iterations to go; `none` when `progress_xstreams[i]` is
read through `NULL` or past the end of the array. -/
def finalize_loop (xs : Option XArray) : Nat → Nat → World → Option World
  | _, 0, w => some w
  | i, k + 1, w =>
    match xs with
    | none => none
    | some arr =>
      match arr.elems[i]? with
      | none => none
      | some x =>
        -- ABT_xstream_join(aid->progress_xstreams[i]);
        -- ABT_xstream_free(&aid->progress_xstreams[i]);
        finalize_loop xs (i + 1) k
          ((w.emit (Event.xstream_join x.handle)).emit (Event.xstream_free x.handle))

/-- The function `abt_io_finalize`. -/
def abt_io_finalize (aid : abt_io_instance) (w : World) : Option World :=
  -- if (aid->num_xstreams) {
  if aid.num_xstreams ≠ 0 then
    match finalize_loop aid.progress_xstreams 0 aid.num_xstreams.toNat w with
    | none => none
    | some w =>
      -- free(aid->progress_xstreams);
      match aid.progress_xstreams with
      | none => some (w.emit (Event.free aid.addr))
      | some arr => some ((w.emit (Event.free arr.addr)).emit (Event.free aid.addr))
  else
    -- free(aid);
    some (w.emit (Event.free aid.addr))

/-! ## Readiness listener -/

/-- Linux `EINTR`. -/
def EINTR : Int := 4

/-- Linux `EBADF`. -/
def EBADF : Int := 9

/-- Linux `EPOLLIN`. -/
def EPOLLIN : Nat := 0x001

/-- Linux `EPOLLERR`. -/
def EPOLLERR : Nat := 0x008

/-- Linux `EPOLLHUP`. -/
def EPOLLHUP : Nat := 0x010

/-- The local `max_events` of `event_listener`: the capacity of `evlist`,
and so the largest batch `epoll_wait` reports. -/
def max_events : Nat := 1000

/-- The record `struct thread_args` (declared in `abt-io.h`), with the
fields the source uses. -/
structure thread_args where
  fd : Int
  epfd : Int
  cond : Nat
  deriving DecidableEq, Repr

/-- One entry of `evlist`: the flag word `events` and the registered payload
`data.ptr`. -/
structure epoll_event where
  events : Nat
  ptr : thread_args
  deriving DecidableEq, Repr

/-- What one call of `epoll_wait(epfd, evlist, max_events, -1)` reports. -/
inductive PollResult where
  /-- it returned `ready`, the number of entries it stored in `evlist` -/
  | ready (evlist : List epoll_event)
  /-- it returned -1 with this `errno` -/
  | error (errno : Int)
  deriving DecidableEq, Repr

/-- What `event_listener` prints. -/
inductive Msg where
  /-- `printf("    closing fd %d \n", ta->fd)` -/
  | closing_fd (fd : Int)
  /-- `printf("close error")` -/
  | close_error
  /-- `printf("epoll_wait invalid fd")` -/
  | epoll_wait_invalid_fd
  /-- `printf("epoll_wait bad fd")` -/
  | epoll_wait_bad_fd
  /-- `perror("epoll_wait")` -/
  | perror_epoll_wait (errno : Int)
  deriving DecidableEq, Repr

/-- One externally visible action of the listener. -/
inductive ListenerAction where
  /-- `ABT_cond_signal(cond)` -/
  | cond_signal (cond : Nat)
  /-- `close(fd)` -/
  | close (fd : Int)
  /-- output on a standard stream -/
  | print (m : Msg)
  deriving DecidableEq, Repr

/-- The locals of `event_listener` and what it has done so far. -/
structure ListenerState where
  epfd : Int
  numOpenFDs : Int
  trace : List ListenerAction
  deriving DecidableEq, Repr

/-- Append an action to the trace of the listener. -/
def ListenerState.emit (s : ListenerState) (a : ListenerAction) : ListenerState :=
  { s with trace := s.trace ++ [a] }

/-- The answers of the kernel to the listener. -/
structure ListenerEnv where
  /-- return value of `close(fd)` -/
  close : Int → Int

/-- One iteration of the loop `for(j=0; j< ready;j++)` of `event_listener`,
on the entry `evlist[j]`. -/
def handle_event (env : ListenerEnv) (ev : epoll_event) (s : ListenerState) : ListenerState :=
  -- ta = (struct thread_args*) evlist[j].data.ptr;
  let ta := ev.ptr
  -- if(evlist[j].events & EPOLLIN){ ABT_cond_signal(ta->cond); }
  if ev.events &&& EPOLLIN ≠ 0 then s.emit (ListenerAction.cond_signal ta.cond)
  -- else if(evlist[j].events & (EPOLLHUP | EPOLLERR)){
  else if ev.events &&& (EPOLLHUP ||| EPOLLERR) ≠ 0 then
    -- printf("    closing fd %d \n", ta->fd);
    let s := s.emit (ListenerAction.print (Msg.closing_fd ta.fd))
    -- if(close(ta->fd) == -1) printf("close error");
    let s := s.emit (ListenerAction.close ta.fd)
    let s := if env.close ta.fd = -1 then s.emit (ListenerAction.print Msg.close_error) else s
    -- numOpenFDs--;
    { s with numOpenFDs := wrapSigned 32 (s.numOpenFDs - 1) }
  else s

/-- The whole loop `for(j=0; j< ready;j++)` over one batch. -/
def process_batch (env : ListenerEnv) (evlist : List epoll_event) (s : ListenerState) :
    ListenerState :=
  evlist.foldl (fun acc ev => handle_event env ev acc) s

/-- How a run of `event_listener` on a finite list of polling results ends. -/
inductive ListenerEnd where
  /-- the function returned -/
  | returned (s : ListenerState)
  /-- the function called `exit(status)` -/
  | exited (status : Int) (s : ListenerState)
  /-- the function is blocked in `epoll_wait`: the results are used up -/
  | waiting (s : ListenerState)
  deriving DecidableEq, Repr

/-- The loop `while(numOpenFDs > 0)` of `event_listener`, fed with the results
of its successive calls of `epoll_wait`. -/
def listener_loop (env : ListenerEnv) : List PollResult → ListenerState → ListenerEnd
  | [], s =>
    if s.numOpenFDs > 0 then ListenerEnd.waiting s else ListenerEnd.returned s
  | r :: rest, s =>
    -- while(numOpenFDs > 0) {
    if s.numOpenFDs > 0 then
      -- ready = epoll_wait(epfd, evlist, max_events, -1);
      match r with
      | .error errno =>
        -- if(ready == -1) { if(errno == EINTR) continue;
        if errno = EINTR then listener_loop env rest s
        -- else if(errno == EINVAL) { printf("epoll_wait invalid fd"); exit(-1); }
        else if errno = EINVAL then
          ListenerEnd.exited (-1) (s.emit (ListenerAction.print Msg.epoll_wait_invalid_fd))
        -- else if (errno == EBADF){ printf("epoll_wait bad fd"); exit(-1); }
        else if errno = EBADF then
          ListenerEnd.exited (-1) (s.emit (ListenerAction.print Msg.epoll_wait_bad_fd))
        -- else { perror("epoll_wait"); exit(-1); }
        else
          ListenerEnd.exited (-1) (s.emit (ListenerAction.print (Msg.perror_epoll_wait errno)))
      | .ready evlist =>
        -- for(j=0; j< ready;j++){ ... }
        listener_loop env rest (process_batch env evlist s)
    else ListenerEnd.returned s

/-- The function `event_listener`: `epfd` is `*(int*) foo`, the count starts
at one. -/
def event_listener (env : ListenerEnv) (epfd : Int) (results : List PollResult) : ListenerEnd :=
  -- int epfd = *(int*) foo; int numOpenFDs = 1, ready, j;
  listener_loop env results { epfd := epfd, numOpenFDs := 1, trace := [] }

/-! ## Specification-side vocabulary -/

/-- Whether an action of the listener is a `close`. -/
def ListenerAction.is_close : ListenerAction → Bool
  | .close _ => true
  | _ => false

/-- The number of descriptors closed in a trace of the listener. -/
def closes (t : List ListenerAction) : Nat :=
  (t.filter ListenerAction.is_close).length


/-- The stream sequence an instance owns: the entries of its array, none when
the array pointer is `NULL`. -/
def owned_streams (aid : abt_io_instance) : List Xstream :=
  match aid.progress_xstreams with
  | none => []
  | some arr => arr.elems

/-- The instance invariant of the data model, for an instance obtained with
argument `n` (zero for a borrowed pool) and pool `p` expected in the
zero-stream case. -/
def instance_invariant (aid : abt_io_instance) (n : Int) (p : Nat) : Prop :=
  (aid.num_xstreams ≠ 0 →
      aid.num_xstreams = n ∧ 0 < n ∧ aid.progress_xstreams.isSome = true ∧
      ((owned_streams aid).length : Int) = n ∧
      ∀ x ∈ owned_streams aid, x.main_pool = aid.progress_pool) ∧
  (aid.num_xstreams = 0 → aid.progress_xstreams = none ∧ aid.progress_pool = p)

instance (aid : abt_io_instance) (n : Int) (p : Nat) : Decidable (instance_invariant aid n p) := by
  unfold instance_invariant; infer_instance

/-- Whether an action is a store into a result slot. -/
def Event.is_slot_write : Event → Bool
  | .slot_write _ _ _ => true
  | _ => false

/-- Whether an action is a signal of a notifier. -/
def Event.is_signal : Event → Bool
  | .eventual_set _ => true
  | _ => false

/-- Whether an action is a store into a result slot by an issue procedure. -/
def Event.is_issue_write : Event → Bool
  | .slot_write Writer.issue _ _ => true
  | _ => false

/-- Whether an action is a successful task submission. -/
def Event.is_task_create : Event → Bool
  | .task_create _ _ => true
  | _ => false

/-- The slot stores and notifier signals of a trace, in order. -/
def slot_and_signal (t : List Event) : List Event :=
  t.filter (fun ev => ev.is_slot_write || ev.is_signal)

/-- Whether an action is a store into the slot at `ret` or a signal of the
notifier `e`. -/
def Event.concerns (ret e : Nat) : Event → Bool
  | .slot_write _ a _ => decide (a = ret)
  | .eventual_set x => decide (x = some e)
  | _ => false

/-- The stores into the slot at `ret` and the signals of the notifier `e` in
a trace, in order. -/
def slot_and_signal_of (ret e : Nat) (t : List Event) : List Event :=
  t.filter (Event.concerns ret e)

/-- The actions of a trace that follow its first task submission. -/
def after_submit (t : List Event) : List Event :=
  (t.dropWhile (fun ev => !ev.is_task_create)).drop 1

/-- The actions performed between world `w` and a later world `w1`. -/
def new_events (w w1 : World) : List Event :=
  w1.trace.drop w.trace.length

/-- The slot stores and notifier signals of one operation whose task runs, as
the code orders them: the store of `-ENOSYS` by the issue procedure, the store
of the kernel return by the task, for a negative return the store of the
negated errno by the task, and the signal. -/
def operation_stores (res : SysRet) (ret : Nat) (e : Nat) : List Event :=
  [Event.slot_write Writer.issue ret (-ENOSYS), Event.slot_write Writer.task ret res.r] ++
    (if res.r < 0 then [Event.slot_write Writer.task ret (-res.errno)] else []) ++
    [Event.eventual_set (some e)]

/-! ## Sample environments -/

/-- A kernel that fails every call with `ENOENT`. -/
def sys_enoent : Call → SysRet := fun _ => { r := -1, errno := ENOENT }

/-- A kernel that answers every call with the value 3. -/
def sys_three : Call → SysRet := fun _ => { r := 3, errno := 0 }

/-- An environment in which every runtime call and every allocation
succeeds. -/
def env_ok (sys : Call → SysRet) : Env :=
  { stack_state := 1000, stack_ret := 2000, indeterminate := 77,
    malloc_pstate := some 3000, malloc_op := some 4000,
    eventual_create := (ABT_SUCCESS, 7), task_create := ABT_SUCCESS,
    eventual_wait := ABT_SUCCESS, ran_before_failed_wait := false, sys := sys,
    malloc_aid := some 5000, xstream_self := (ABT_SUCCESS, { handle := 1, main_pool := 9 }),
    get_main_pools := ABT_SUCCESS, malloc_xstreams := some 6000,
    snoozer_xstream_create := (ABT_SUCCESS, 11, fun i => 100 + i) }

/-- As `env_ok`, but `ABT_eventual_create` fails. -/
def env_no_eventual (sys : Call → SysRet) : Env :=
  { env_ok sys with eventual_create := (-1, 0) }

/-- As `env_ok`, but `ABT_task_create` fails. -/
def env_no_task (sys : Call → SysRet) : Env :=
  { env_ok sys with task_create := -1 }

/-- As `env_ok`, but `ABT_eventual_wait` fails, the task not having run. -/
def env_wait_fails (sys : Call → SysRet) : Env :=
  { env_ok sys with eventual_wait := -1 }

/-- As `env_ok`, but `ABT_eventual_wait` fails after the task has run. -/
def env_wait_fails_late (sys : Call → SysRet) : Env :=
  { env_ok sys with eventual_wait := -1, ran_before_failed_wait := true }

/-- As `env_ok`, but the allocation of the operation record fails. -/
def env_no_pstate (sys : Call → SysRet) : Env :=
  { env_ok sys with malloc_pstate := none }

/-- As `env_ok`, but the allocation of the handle envelope fails. -/
def env_no_op (sys : Call → SysRet) : Env :=
  { env_ok sys with malloc_op := none }

/-- A freshly allocated handle envelope. -/
def op_fresh : abt_io_op :=
  { addr := 4000, e := none, state := none, free_fn := none }

/-- A kernel whose `close` always succeeds. -/
def lenv_ok : ListenerEnv := { close := fun _ => 0 }

/-- A registration of descriptor 5 with condition variable 70. -/
def ta_five : thread_args := { fd := 5, epfd := 3, cond := 70 }

/-- A registration of descriptor 6 with condition variable 71. -/
def ta_six : thread_args := { fd := 6, epfd := 3, cond := 71 }

/-- Descriptor 5 is readable. -/
def ev_readable : epoll_event := { events := EPOLLIN, ptr := ta_five }

/-- Descriptor 6 hung up. -/
def ev_hangup : epoll_event := { events := EPOLLHUP, ptr := ta_six }

/-- Descriptor 5 hung up. -/
def ev_hangup_five : epoll_event := { events := EPOLLHUP, ptr := ta_five }

/-- The state in which `event_listener` enters its loop, for `epfd` 3. -/
def listener_start : ListenerState := { epfd := 3, numOpenFDs := 1, trace := [] }

/-- Polling results: an interrupted wait, descriptor 5 readable, another
interrupted wait, descriptor 6 hung up. -/
def polls_sample : List PollResult :=
  [PollResult.error EINTR, PollResult.ready [ev_readable], PollResult.error EINTR,
   PollResult.ready [ev_hangup]]

/-- The state `event_listener` returns in on `polls_sample`. -/
def listener_sample_end : ListenerState :=
  { epfd := 3, numOpenFDs := 0,
    trace := [ListenerAction.cond_signal 70, ListenerAction.print (Msg.closing_fd 6),
              ListenerAction.close 6] }

/-- A world with history and with another operation in flight: slot 50 was
stored into before, and a `close` task for slot 51 and notifier 6 is pending. -/
def world_busy : World :=
  { mem := fun _ => 5,
    pending := [{ pool := 9, arg := { ret := 51, call := Call.CLOSE 8, eventual := some 6 } }],
    trace := [Event.slot_write Writer.task 50 3, Event.eventual_set (some 5)] }

/-- A memory holding 5 everywhere. -/
def mem_five : Nat → Int := fun _ => 5

/-- The instance `abt_io_init` builds in `env_ok` for two streams. -/
def aid_two : abt_io_instance :=
  { addr := 5000, progress_pool := 11,
    progress_xstreams := some
      { addr := 6000,
        elems := [{ handle := 100, main_pool := 11 }, { handle := 101, main_pool := 11 }] },
    num_xstreams := 2 }

/-- The instance `abt_io_init_pool` builds in `env_ok` for pool 42. -/
def aid_borrowed : abt_io_instance :=
  { addr := 5000, progress_pool := 42, progress_xstreams := none, num_xstreams := 0 }

/-- An instance on pool 9 that owns no stream. -/
def aid_zero : abt_io_instance :=
  { addr := 5000, progress_pool := 9, progress_xstreams := none, num_xstreams := 0 }

end AbtIo

/-! # Theorems -/

namespace AbtIo

/-! ## Integer stores -/

theorem wrapSigned_slot (c : Call) (x : Int) (h : inRange c.slotBits x) :
    wrapSigned c.slotBits x = x := by
  cases c <;> simp only [Call.slotBits, wrapSigned, inRange] at * <;> omega

theorem wrapSigned_int (x : Int) (h : inRange 32 x) : wrapSigned 32 x = x := by
  simp only [wrapSigned, inRange] at * ; omega

theorem inRange_slot_of_int (c : Call) (x : Int) (h : inRange 32 x) :
    inRange c.slotBits x := by
  cases c <;> simp only [Call.slotBits, inRange] at * <;> omega

theorem inRange_neg_errno (e : Int) (h : inRange 32 e) (hmin : e ≠ -(2 ^ 31)) :
    inRange 32 (-e) := by
  simp only [inRange] at * ; omega

/-! ## Task bodies -/

/-- The slot after a task body, for a well-typed kernel answer. -/
theorem abt_io_fn_mem (env : Env) (state : OpState) (w : World)
    (hr : inRange state.call.slotBits (env.sys state.call).r)
    (he : inRange 32 (env.sys state.call).errno)
    (hmin : (env.sys state.call).r < 0 → (env.sys state.call).errno ≠ -(2 ^ 31)) :
    (abt_io_fn env state w).mem state.ret =
      if 0 ≤ (env.sys state.call).r then (env.sys state.call).r
      else -(env.sys state.call).errno := by
  have h1 := wrapSigned_slot state.call _ hr
  by_cases hneg : (env.sys state.call).r < 0
  · have h2 := wrapSigned_int _ (inRange_neg_errno _ he (hmin hneg))
    have h3 := wrapSigned_slot state.call _
      (inRange_slot_of_int state.call _ (inRange_neg_errno _ he (hmin hneg)))
    have : ¬ 0 ≤ (env.sys state.call).r := by omega
    simp [abt_io_fn, World.store, World.emit, h1, h2, h3, hneg, this]
  · have : 0 ≤ (env.sys state.call).r := by omega
    simp [abt_io_fn, World.store, World.emit, h1, hneg, this]

/-- C1: after any of the eight task bodies has run on a kernel answer
`(r, errno)` that is well typed (`r` fits the slot type, `errno` is an `int`,
and not `INT_MIN` when `r < 0`, since `-errno` is then undefined in C), the
result slot holds `r` when `r >= 0` and `-errno` when `r < 0`. -/
theorem C1_task_body_slot (env : Env) (state : OpState) (w : World)
    (hr : inRange state.call.slotBits (env.sys state.call).r)
    (he : inRange 32 (env.sys state.call).errno)
    (hmin : (env.sys state.call).r < 0 → (env.sys state.call).errno ≠ -(2 ^ 31)) :
    (0 ≤ (env.sys state.call).r →
      (abt_io_fn env state w).mem state.ret = (env.sys state.call).r) ∧
    ((env.sys state.call).r < 0 →
      (abt_io_fn env state w).mem state.ret = -(env.sys state.call).errno) := by
  have h := abt_io_fn_mem env state w hr he hmin
  constructor
  · intro h0
    rw [h, if_pos h0]
  · intro h0
    rw [h, if_neg (by omega)]

/-- Witness for C1: `abt_io_unlink_fn` on a kernel that fails with `ENOENT`. -/
theorem C1_task_body_slot_witness :
    inRange 32 (-1) ∧ inRange 32 ENOENT ∧ ((-1 : Int) < 0 → ENOENT ≠ -(2 ^ 31)) ∧
    ((0 : Int) ≤ -1 →
      (abt_io_fn (env_ok sys_enoent) { ret := 50, call := Call.UNLINK 1, eventual := some 7 }
        (World.init mem_five)).mem 50 = -1) ∧
    ((-1 : Int) < 0 →
      (abt_io_fn (env_ok sys_enoent) { ret := 50, call := Call.UNLINK 1, eventual := some 7 }
        (World.init mem_five)).mem 50 = -ENOENT) :=
  ⟨by decide, by decide, by decide,
   C1_task_body_slot (env_ok sys_enoent) { ret := 50, call := Call.UNLINK 1, eventual := some 7 }
     (World.init mem_five) (by decide) (by decide) (by decide)⟩

/-! ## The synchronous path -/

/-- With the notifier created, the task submitted and the wait successful,
a synchronous issue returns 0 in a world reached by running the task body of
the operation last. -/
theorem issue_sync_ok (env : Env) (pool : Nat) (call : Call) (ret : Nat) (w : World)
    (hc : env.eventual_create.1 = ABT_SUCCESS) (ht : env.task_create = ABT_SUCCESS)
    (hw : env.eventual_wait = ABT_SUCCESS) :
    ∃ w1 : World, issue env pool none call ret w =
      Outcome.returned (0, none)
        (abt_io_fn env { ret := ret, call := call, eventual := some env.eventual_create.2 } w1) := by
  simp [issue, pstate_of, ABT_eventual_wait, run_pending, hc, ht, hw, World.emit, World.store,
    List.foldl_append]

/-- C2: when notifier creation, task submission and the wait all succeed, a
blocking wrapper returns the value its task left in the slot: the raw kernel
return when that is not negative, the negated errno otherwise (for a kernel
answer that fits the C types). -/
theorem C2_blocking_returns_task_value (env : Env) (aid : abt_io_instance) (call : Call)
    (w : World)
    (hc : env.eventual_create.1 = ABT_SUCCESS) (ht : env.task_create = ABT_SUCCESS)
    (hw : env.eventual_wait = ABT_SUCCESS)
    (hr : inRange call.slotBits (env.sys call).r)
    (he : inRange 32 (env.sys call).errno)
    (hmin : (env.sys call).r < 0 → (env.sys call).errno ≠ -(2 ^ 31)) :
    (abt_io_blocking env aid call w).value? =
      some (if 0 ≤ (env.sys call).r then (env.sys call).r else -(env.sys call).errno) := by
  obtain ⟨w1, h1⟩ := issue_sync_ok env aid.progress_pool call env.stack_ret
    { w with mem := fun a => if a = env.stack_ret then call.retInit env else w.mem a } hc ht hw
  have h2 := abt_io_fn_mem env
    { ret := env.stack_ret, call := call, eventual := some env.eventual_create.2 } w1 hr he hmin
  simp only [abt_io_blocking, h1, Outcome.value?]
  exact congrArg some h2

/-- Witness for C2: blocking open of a missing path returns `-ENOENT`. -/
theorem C2_blocking_returns_task_value_witness :
    (env_ok sys_enoent).eventual_create.1 = ABT_SUCCESS ∧
    (env_ok sys_enoent).task_create = ABT_SUCCESS ∧
    (env_ok sys_enoent).eventual_wait = ABT_SUCCESS ∧
    (abt_io_blocking (env_ok sys_enoent) aid_zero (Call.OPEN 1 0 0) (World.init mem_five)).value?
      = some (-ENOENT) :=
  ⟨rfl, rfl, rfl,
   C2_blocking_returns_task_value (env_ok sys_enoent) aid_zero (Call.OPEN 1 0 0)
     (World.init mem_five) rfl rfl rfl (by decide) (by decide) (by decide)⟩

/-! ## Setup failures of the issue path -/

/-- The error constants stored by the issue procedures fit every slot. -/
theorem wrapSigned_const (c : Call) (x : Int) (h : inRange 32 x) :
    wrapSigned c.slotBits x = x :=
  wrapSigned_slot c x (inRange_slot_of_int c x h)

/-- C3: in either mode, with a record to work on (`p` is its address), a
failed notifier creation leaves `-ENOMEM` in the slot and a failed task
submission leaves `-EINVAL`; the issue procedure returns `-1`; the trace shows
`ABT_eventual_free` exactly when the notifier had been created and `free` of
the record exactly in deferred mode. -/
theorem C3_setup_failure (env : Env) (pool : Nat) (op : Option abt_io_op) (call : Call)
    (ret : Nat) (w : World) (p : Nat)
    (hp : pstate_of env op = some p)
    (hfail : env.eventual_create.1 ≠ ABT_SUCCESS ∨ env.task_create ≠ ABT_SUCCESS) :
    (issue env pool op call ret w).value?.map Prod.fst = some (-1) ∧
    (issue env pool op call ret w).world.mem ret =
      (if env.eventual_create.1 ≠ ABT_SUCCESS then -ENOMEM else -EINVAL) ∧
    (issue env pool op call ret w).world.trace =
      w.trace ++
        (Event.slot_write Writer.issue ret (-ENOSYS) ::
          (if env.eventual_create.1 ≠ ABT_SUCCESS then
            [Event.slot_write Writer.issue ret (-ENOMEM)]
           else
            [Event.eventual_create env.eventual_create.2,
             Event.slot_write Writer.issue ret (-EINVAL),
             Event.eventual_free env.eventual_create.2])) ++
        (if op.isSome then [Event.free p] else []) := by
  have h1 := wrapSigned_const call (-ENOSYS) (by decide)
  have h2 := wrapSigned_const call (-ENOMEM) (by decide)
  have h3 := wrapSigned_const call (-EINVAL) (by decide)
  by_cases hc : env.eventual_create.1 = ABT_SUCCESS
  · have ht : env.task_create ≠ ABT_SUCCESS := by
      rcases hfail with h | h
      · exact absurd hc h
      · exact h
    cases op <;>
      simp [issue, hp, issue_err, hc, ht, World.store, World.emit, Outcome.value?,
        Outcome.world, h1, h3]
  · cases op <;>
      simp [issue, hp, issue_err, hc, World.store, World.emit, Outcome.value?,
        Outcome.world, h1, h2]

/-- Witness for C3: a synchronous `issue_close` whose notifier cannot be
created, and a deferred `issue_pread` whose task cannot be submitted. -/
theorem C3_setup_failure_witness :
    (pstate_of (env_no_eventual sys_three) none = some 1000 ∧
     (issue (env_no_eventual sys_three) 9 none (Call.CLOSE 4) 50
        (World.init mem_five)).value?.map Prod.fst = some (-1) ∧
     (issue (env_no_eventual sys_three) 9 none (Call.CLOSE 4) 50
        (World.init mem_five)).world.mem 50 = -ENOMEM ∧
     (issue (env_no_eventual sys_three) 9 none (Call.CLOSE 4) 50
        (World.init mem_five)).world.trace =
       [Event.slot_write Writer.issue 50 (-ENOSYS),
        Event.slot_write Writer.issue 50 (-ENOMEM)]) ∧
    (pstate_of (env_no_task sys_three) (some op_fresh) = some 3000 ∧
     (issue (env_no_task sys_three) 9 (some op_fresh) (Call.PREAD 4 60 8 0) 50
        (World.init mem_five)).value?.map Prod.fst = some (-1) ∧
     (issue (env_no_task sys_three) 9 (some op_fresh) (Call.PREAD 4 60 8 0) 50
        (World.init mem_five)).world.mem 50 = -EINVAL ∧
     (issue (env_no_task sys_three) 9 (some op_fresh) (Call.PREAD 4 60 8 0) 50
        (World.init mem_five)).world.trace =
       [Event.slot_write Writer.issue 50 (-ENOSYS), Event.eventual_create 7,
        Event.slot_write Writer.issue 50 (-EINVAL), Event.eventual_free 7,
        Event.free 3000]) :=
  ⟨⟨rfl, C3_setup_failure (env_no_eventual sys_three) 9 none (Call.CLOSE 4) 50
      (World.init mem_five) 1000 rfl (Or.inl (by decide))⟩,
   ⟨rfl, C3_setup_failure (env_no_task sys_three) 9 (some op_fresh) (Call.PREAD 4 60 8 0) 50
      (World.init mem_five) 3000 rfl (Or.inr (by decide))⟩⟩

/-- C4, the code at the failing input: in deferred mode, when the allocation
of the operation record fails, every issue procedure stores `-ENOMEM` and then,
at its `err:` label, reads `pstate->eventual` through the `NULL` record
pointer; it does not return. -/
theorem C4_record_alloc_failure_reads_null (env : Env) (pool : Nat) (h : abt_io_op)
    (call : Call) (ret : Nat) (w : World) :
    (issue { env with malloc_pstate := none } pool (some h) call ret w).faulted = true ∧
    (issue { env with malloc_pstate := none } pool (some h) call ret w).value? = none ∧
    (issue { env with malloc_pstate := none } pool (some h) call ret w).world.mem ret
      = -ENOMEM := by
  have h2 := wrapSigned_const call (-ENOMEM) (by decide)
  simp [issue, pstate_of, issue_err, Outcome.faulted, Outcome.value?, Outcome.world,
    World.store, h2]

/-- C5 as stated fails: when the allocation of the handle envelope fails,
`abt_io_open_nb` returns the null handle but the slot still holds what the
caller had put there (5), not `-ENOMEM`. -/
theorem C5_counterexample :
    ¬ ((abt_io_nb (env_no_op sys_three) aid_zero (Call.OPEN 1 0 0) 50
          (World.init mem_five)).value? = some none ∧
       (abt_io_nb (env_no_op sys_three) aid_zero (Call.OPEN 1 0 0) 50
          (World.init mem_five)).world.mem 50 = -ENOMEM) := by
  decide

/-- C5 amended: a deferred wrapper whose handle envelope cannot be allocated
returns the null handle and leaves the slot and the trace untouched; one whose
envelope and record are allocated but whose notifier cannot be created returns
the null handle with `-ENOMEM` in the slot. -/
theorem C5_nb_alloc_failure (env : Env) (aid : abt_io_instance) (call : Call) (ret : Nat)
    (w : World)
    (hfail : env.malloc_op = none ∨
      (env.malloc_op ≠ none ∧ env.malloc_pstate ≠ none ∧
        env.eventual_create.1 ≠ ABT_SUCCESS)) :
    (abt_io_nb env aid call ret w).value? = some none ∧
    (abt_io_nb env aid call ret w).world.mem ret =
      (if env.malloc_op = none then w.mem ret else -ENOMEM) ∧
    (env.malloc_op = none → (abt_io_nb env aid call ret w).world.trace = w.trace) := by
  have h2 := wrapSigned_const call (-ENOMEM) (by decide)
  rcases hfail with h | ⟨ho, hp, hc⟩
  · simp [abt_io_nb, h, Outcome.value?, Outcome.world]
  · obtain ⟨a, ha⟩ := Option.ne_none_iff_exists'.mp ho
    obtain ⟨p, hp⟩ := Option.ne_none_iff_exists'.mp hp
    simp [abt_io_nb, ha, issue, pstate_of, hp, hc, issue_err, Outcome.value?, Outcome.world,
      World.store, World.emit, h2]

/-- Witness for C5 amended: `abt_io_open_nb` without an envelope, and
`abt_io_unlink_nb` without a notifier. -/
theorem C5_nb_alloc_failure_witness :
    ((env_no_op sys_three).malloc_op = none ∧
     (abt_io_nb (env_no_op sys_three) aid_zero (Call.OPEN 1 0 0) 50
        (World.init mem_five)).value? = some none ∧
     (abt_io_nb (env_no_op sys_three) aid_zero (Call.OPEN 1 0 0) 50
        (World.init mem_five)).world.mem 50 = 5) ∧
    ((env_no_eventual sys_three).malloc_op ≠ none ∧
     (env_no_eventual sys_three).malloc_pstate ≠ none ∧
     (env_no_eventual sys_three).eventual_create.1 ≠ ABT_SUCCESS ∧
     (abt_io_nb (env_no_eventual sys_three) aid_zero (Call.UNLINK 1) 50
        (World.init mem_five)).value? = some none ∧
     (abt_io_nb (env_no_eventual sys_three) aid_zero (Call.UNLINK 1) 50
        (World.init mem_five)).world.mem 50 = -ENOMEM) :=
  ⟨⟨rfl,
    (C5_nb_alloc_failure (env_no_op sys_three) aid_zero (Call.OPEN 1 0 0) 50
      (World.init mem_five) (Or.inl rfl)).1,
    (C5_nb_alloc_failure (env_no_op sys_three) aid_zero (Call.OPEN 1 0 0) 50
      (World.init mem_five) (Or.inl rfl)).2.1⟩,
   ⟨by decide, by decide, by decide,
    (C5_nb_alloc_failure (env_no_eventual sys_three) aid_zero (Call.UNLINK 1) 50
      (World.init mem_five) (Or.inr ⟨by decide, by decide, by decide⟩)).1,
    (C5_nb_alloc_failure (env_no_eventual sys_three) aid_zero (Call.UNLINK 1) 50
      (World.init mem_five) (Or.inr ⟨by decide, by decide, by decide⟩)).2.1⟩⟩

/-! ## After submission -/

/-- C6: in synchronous mode, with the notifier created and the task
submitted, a failed wait leaves `-EINVAL` in the slot and the issue procedure
returns `-1` (whether or not the task ran before the wait gave up); a
successful wait makes it return 0. -/
theorem C6_sync_wait (env : Env) (pool : Nat) (call : Call) (ret : Nat) (w : World)
    (hc : env.eventual_create.1 = ABT_SUCCESS) (ht : env.task_create = ABT_SUCCESS) :
    (env.eventual_wait ≠ ABT_SUCCESS →
      (issue env pool none call ret w).world.mem ret = -EINVAL ∧
      (issue env pool none call ret w).value?.map Prod.fst = some (-1)) ∧
    (env.eventual_wait = ABT_SUCCESS →
      (issue env pool none call ret w).value?.map Prod.fst = some 0) := by
  have h3 := wrapSigned_const call (-EINVAL) (by decide)
  constructor
  · intro hw
    by_cases hran : env.ran_before_failed_wait = true
    · simp [issue, pstate_of, ABT_eventual_wait, issue_err, hc, ht, hw, hran, World.store,
        World.emit, Outcome.value?, Outcome.world, h3]
    · simp [issue, pstate_of, ABT_eventual_wait, issue_err, hc, ht, hw, hran, World.store,
        World.emit, Outcome.value?, Outcome.world, h3]
  · intro hw
    simp [issue, pstate_of, ABT_eventual_wait, hc, ht, hw, Outcome.value?]

/-- Witness for C6: a synchronous `issue_write` whose wait fails after the
task ran, and one whose wait succeeds. -/
theorem C6_sync_wait_witness :
    ((env_wait_fails_late sys_three).eventual_create.1 = ABT_SUCCESS ∧
     (env_wait_fails_late sys_three).task_create = ABT_SUCCESS ∧
     (env_wait_fails_late sys_three).eventual_wait ≠ ABT_SUCCESS ∧
     (issue (env_wait_fails_late sys_three) 9 none (Call.WRITE 4 60 3) 50
        (World.init mem_five)).world.mem 50 = -EINVAL ∧
     (issue (env_wait_fails_late sys_three) 9 none (Call.WRITE 4 60 3) 50
        (World.init mem_five)).value?.map Prod.fst = some (-1)) ∧
    ((env_ok sys_three).eventual_wait = ABT_SUCCESS ∧
     (issue (env_ok sys_three) 9 none (Call.WRITE 4 60 3) 50
        (World.init mem_five)).value?.map Prod.fst = some 0) :=
  ⟨⟨rfl, rfl, by decide,
    (C6_sync_wait (env_wait_fails_late sys_three) 9 (Call.WRITE 4 60 3) 50
      (World.init mem_five) rfl rfl).1 (by decide)⟩,
   ⟨rfl,
    (C6_sync_wait (env_ok sys_three) 9 (Call.WRITE 4 60 3) 50
      (World.init mem_five) rfl rfl).2 rfl⟩⟩

/-- A task body only appends to the trace, and nothing it appends is a store
by an issue procedure. -/
theorem abt_io_fn_trace_quiet (env : Env) (state : OpState) (w : World) :
    ∃ T : List Event, (abt_io_fn env state w).trace = w.trace ++ T ∧
      ∀ ev ∈ T, ev.is_issue_write = false := by
  by_cases hneg : wrapSigned state.call.slotBits (env.sys state.call).r < 0
  · refine ⟨[Event.syscall state.call,
      Event.slot_write Writer.task state.ret
        (wrapSigned state.call.slotBits (env.sys state.call).r),
      Event.slot_write Writer.task state.ret
        (wrapSigned state.call.slotBits (wrapSigned 32 (-(env.sys state.call).errno))),
      Event.eventual_set state.eventual], ?_, ?_⟩
    · simp [abt_io_fn, World.store, World.emit, hneg]
    · intro ev hev
      simp at hev
      rcases hev with h | h | h | h <;> subst h <;> rfl
  · refine ⟨[Event.syscall state.call,
      Event.slot_write Writer.task state.ret
        (wrapSigned state.call.slotBits (env.sys state.call).r),
      Event.eventual_set state.eventual], ?_, ?_⟩
    · simp [abt_io_fn, World.store, World.emit, hneg]
    · intro ev hev
      simp at hev
      rcases hev with h | h | h <;> subst h <;> rfl

/-- Running task bodies only appends to the trace, and nothing appended is a
store by an issue procedure. -/
theorem run_tasks_trace_quiet (env : Env) (l : List Task) :
    ∀ w : World, ∃ T : List Event,
      (l.foldl (fun acc t => abt_io_fn env t.arg acc) w).trace = w.trace ++ T ∧
      ∀ ev ∈ T, ev.is_issue_write = false := by
  induction l with
  | nil =>
    intro w
    exact ⟨[], by simp, by simp⟩
  | cons t l ih =>
    intro w
    obtain ⟨T1, h1, q1⟩ := abt_io_fn_trace_quiet env t.arg w
    obtain ⟨T2, h2, q2⟩ := ih (abt_io_fn env t.arg w)
    refine ⟨T1 ++ T2, ?_, ?_⟩
    · simp only [List.foldl_cons, h2, h1, List.append_assoc]
    · intro ev hev
      rcases List.mem_append.mp hev with h | h
      · exact q1 ev h
      · exact q2 ev h

/-- The world a synchronous issue returns after a successful wait: the task
bodies have run on the world in which the issue procedure had stored
`-ENOSYS`, created the notifier, submitted the task and started to wait. -/
theorem issue_sync_ok_world (env : Env) (pool : Nat) (call : Call) (ret : Nat) (w : World)
    (hc : env.eventual_create.1 = ABT_SUCCESS) (ht : env.task_create = ABT_SUCCESS)
    (hw : env.eventual_wait = ABT_SUCCESS) :
    ∃ w0 : World,
      issue env pool none call ret w = Outcome.returned (0, none) (run_pending env w0) ∧
      w0.trace = w.trace ++
        [Event.slot_write Writer.issue ret (-ENOSYS),
         Event.eventual_create env.eventual_create.2,
         Event.task_create pool env.stack_state,
         Event.eventual_wait (some env.eventual_create.2)] ∧
      w0.pending = w.pending ++
        [{ pool := pool,
           arg := { ret := ret, call := call, eventual := some env.eventual_create.2 } }] ∧
      w0.mem ret = -ENOSYS := by
  have h1 := wrapSigned_const call (-ENOSYS) (by decide)
  simp only [issue, pstate_of, ABT_eventual_wait, hc, ht, hw, ne_eq, not_true_eq_false,
    if_false, if_true]
  refine ⟨_, rfl, ?_, ?_, ?_⟩
  · simp [World.emit, World.store, h1]
  · simp [World.emit, World.store]
  · simp [World.emit, World.store, h1]

/-- C7 as stated fails: in a synchronous `issue_close` whose task was
submitted but whose wait fails, the issue procedure does not return 0, and it
stores `-EINVAL` into the slot after the submission. -/
theorem C7_counterexample :
    (env_wait_fails sys_three).task_create = ABT_SUCCESS ∧
    ¬ ((issue (env_wait_fails sys_three) 9 none (Call.CLOSE 4) 50
          (World.init mem_five)).value?.map Prod.fst = some 0 ∧
       (after_submit (new_events (World.init mem_five)
          (issue (env_wait_fails sys_three) 9 none (Call.CLOSE 4) 50
            (World.init mem_five)).world)).filter Event.is_issue_write = []) := by
  decide

/-- C7 amended: with a record to work on, the notifier created and the task
submitted, every issue procedure in deferred mode, and in synchronous mode
when the wait succeeds, returns 0, and none of the actions after the
submission is a store into the slot by the issue procedure. -/
theorem C7_after_submit (env : Env) (pool : Nat) (op : Option abt_io_op) (call : Call)
    (ret : Nat) (w : World) (p : Nat)
    (hp : pstate_of env op = some p)
    (hc : env.eventual_create.1 = ABT_SUCCESS) (ht : env.task_create = ABT_SUCCESS)
    (hw : op = none → env.eventual_wait = ABT_SUCCESS) :
    (issue env pool op call ret w).value?.map Prod.fst = some 0 ∧
    (after_submit (new_events w (issue env pool op call ret w).world)).filter
      Event.is_issue_write = [] := by
  cases op with
  | none =>
    obtain ⟨w0, h0, htr, -, -⟩ := issue_sync_ok_world env pool call ret w hc ht (hw rfl)
    obtain ⟨T, hT, hq⟩ := run_tasks_trace_quiet env w0.pending { w0 with pending := [] }
    have hrun : (run_pending env w0).trace = w0.trace ++ T := hT
    constructor
    · simp [h0, Outcome.value?]
    · simp only [h0, Outcome.world, new_events, hrun, htr, List.append_assoc, List.drop_left]
      simp only [after_submit, List.cons_append, List.nil_append, List.dropWhile_cons,
        Event.is_task_create, Bool.not_false, Bool.not_true, if_true, if_false,
        List.drop_succ_cons, List.drop_zero, List.filter_cons, Event.is_issue_write,
        Bool.false_eq_true]
      exact List.filter_eq_nil_iff.mpr (fun ev hev => by simp [hq ev hev])
  | some h =>
    simp [issue, hp, hc, ht, Outcome.value?, Outcome.world, new_events, World.store,
      World.emit, after_submit, Event.is_task_create, Event.is_issue_write]

/-- Witness for C7 amended: a deferred `issue_pwrite`, and a synchronous
`issue_mkostemp` whose wait succeeds. -/
theorem C7_after_submit_witness :
    (pstate_of (env_ok sys_three) (some op_fresh) = some 3000 ∧
     (issue (env_ok sys_three) 9 (some op_fresh) (Call.PWRITE 4 60 3 0) 50
        (World.init mem_five)).value?.map Prod.fst = some 0 ∧
     (after_submit (new_events (World.init mem_five)
        (issue (env_ok sys_three) 9 (some op_fresh) (Call.PWRITE 4 60 3 0) 50
          (World.init mem_five)).world)).filter Event.is_issue_write = []) ∧
    (pstate_of (env_ok sys_enoent) none = some 1000 ∧
     (issue (env_ok sys_enoent) 9 none (Call.MKOSTEMP 60 0) 50
        (World.init mem_five)).value?.map Prod.fst = some 0 ∧
     (after_submit (new_events (World.init mem_five)
        (issue (env_ok sys_enoent) 9 none (Call.MKOSTEMP 60 0) 50
          (World.init mem_five)).world)).filter Event.is_issue_write = []) :=
  ⟨⟨rfl, C7_after_submit (env_ok sys_three) 9 (some op_fresh) (Call.PWRITE 4 60 3 0) 50
      (World.init mem_five) 3000 rfl rfl rfl (fun h => by cases h)⟩,
   ⟨rfl, C7_after_submit (env_ok sys_enoent) 9 none (Call.MKOSTEMP 60 0) 50
      (World.init mem_five) 1000 rfl rfl rfl (fun _ => rfl)⟩⟩

/-! ## Instance lifecycle -/

/-- The number of array entries `abt_io_init` allocates for a count that is a
positive `int`. -/
theorem init_array_length (n : Int) (hn : inRange 32 n) (hpos : 0 < n) :
    ((n.toNat * sizeof_xstream) % 2 ^ 64) / sizeof_xstream = n.toNat := by
  simp only [inRange, sizeof_xstream] at *
  omega

/-- What `abt_io_init` returns when it returns an instance for a positive
count. -/
theorem abt_io_init_pos (env : Env) (n : Int) (w : World) (aid : abt_io_instance)
    (hn : inRange 32 n) (hpos : 0 < n) (h : (abt_io_init env n w).1 = some aid) :
    ∃ a arr : Nat,
      aid = { addr := a, progress_pool := env.snoozer_xstream_create.snd.fst,
              progress_xstreams := some
                { addr := arr,
                  elems := (List.range n.toNat).map (fun i =>
                    ({ handle := env.snoozer_xstream_create.snd.snd i,
                       main_pool := env.snoozer_xstream_create.snd.fst } : Xstream)) },
              num_xstreams := n } := by
  have hlen := init_array_length n hn hpos
  have h0 : ¬ n < 0 := by omega
  have h1 : n ≠ 0 := by omega
  unfold abt_io_init at h
  simp only [h0, h1, if_false] at h
  cases ha : env.malloc_aid with
  | none => simp [ha] at h
  | some a =>
    cases hx : env.malloc_xstreams with
    | none => simp [ha, hx] at h
    | some arr =>
      by_cases hs : env.snoozer_xstream_create.fst = ABT_SUCCESS
      · simp only [ha, hx, hs, ne_eq, not_true_eq_false, if_false, hlen,
          Option.some.injEq] at h
        exact ⟨a, arr, h.symm⟩
      · simp [ha, hx, hs] at h

/-- What `abt_io_init` returns when it returns an instance for count zero. -/
theorem abt_io_init_zero (env : Env) (w : World) (aid : abt_io_instance)
    (h : (abt_io_init env 0 w).1 = some aid) :
    ∃ a : Nat,
      aid = { addr := a, progress_pool := env.xstream_self.snd.main_pool,
              progress_xstreams := none, num_xstreams := 0 } := by
  unfold abt_io_init at h
  cases ha : env.malloc_aid with
  | none => simp [ha] at h
  | some a =>
    by_cases h1 : env.xstream_self.fst = ABT_SUCCESS
    · by_cases h2 : env.get_main_pools = ABT_SUCCESS
      · simp [ha, h1, h2] at h
        exact ⟨a, h.symm⟩
      · simp [ha, h1, h2] at h
    · simp [ha, h1] at h

/-- What `abt_io_init_pool` returns when it returns an instance. -/
theorem abt_io_init_pool_some (env : Env) (p : Nat) (w : World) (aid : abt_io_instance)
    (h : (abt_io_init_pool env p w).1 = some aid) :
    ∃ a : Nat,
      aid = { addr := a, progress_pool := p, progress_xstreams := none, num_xstreams := 0 } := by
  unfold abt_io_init_pool at h
  cases ha : env.malloc_aid with
  | none => simp [ha] at h
  | some a =>
    simp [ha] at h
    exact ⟨a, h.symm⟩

/-- A negative count yields no instance. -/
theorem abt_io_init_neg (env : Env) (n : Int) (w : World) (hneg : n < 0) :
    (abt_io_init env n w).1 = none := by
  simp [abt_io_init, hneg]

/-- C8: an instance returned by `abt_io_init` for an `int` count `n`, or by
`abt_io_init_pool` for a pool `p`, satisfies the instance invariant: a nonzero
stream count equals `n > 0` and the stream array has exactly `n` entries, all
taking their work from the pool of the instance; with a zero count there is no
stream array and the pool is the main pool of the calling stream
(`abt_io_init`) or the borrowed pool `p` (`abt_io_init_pool`). -/
theorem C8_instance_invariant (env : Env) (n : Int) (p : Nat) (w : World)
    (aid : abt_io_instance) (hn : inRange 32 n) :
    ((abt_io_init env n w).1 = some aid →
      instance_invariant aid n env.xstream_self.snd.main_pool) ∧
    ((abt_io_init_pool env p w).1 = some aid → instance_invariant aid 0 p) := by
  constructor
  · intro h
    rcases lt_trichotomy n 0 with hneg | hz | hpos
    · rw [abt_io_init_neg env n w hneg] at h
      cases h
    · subst hz
      obtain ⟨a, rfl⟩ := abt_io_init_zero env w aid h
      simp [instance_invariant]
    · obtain ⟨a, arr, rfl⟩ := abt_io_init_pos env n w aid hn hpos h
      have h1 : n ≠ 0 := by omega
      have h2 : ((n.toNat : Nat) : Int) = n := Int.toNat_of_nonneg (by omega)
      simp [instance_invariant, owned_streams, h1, hpos, h2]
  · intro h
    obtain ⟨a, rfl⟩ := abt_io_init_pool_some env p w aid h
    simp [instance_invariant]

/-- Witness for C8: `abt_io_init(2)`, `abt_io_init(0)` and
`abt_io_init_pool(42)` in an environment where every call succeeds. -/
theorem C8_instance_invariant_witness :
    (inRange 32 2 ∧
     (abt_io_init (env_ok sys_three) 2 (World.init mem_five)).1 = some aid_two ∧
     instance_invariant aid_two 2 9) ∧
    (inRange 32 0 ∧
     (abt_io_init (env_ok sys_three) 0 (World.init mem_five)).1 = some aid_zero ∧
     instance_invariant aid_zero 0 9) ∧
    ((abt_io_init_pool (env_ok sys_three) 42 (World.init mem_five)).1 = some aid_borrowed ∧
     instance_invariant aid_borrowed 0 42) :=
  ⟨⟨by decide, by decide,
    (C8_instance_invariant (env_ok sys_three) 2 42 (World.init mem_five) aid_two
      (by decide)).1 (by decide)⟩,
   ⟨by decide, by decide,
    (C8_instance_invariant (env_ok sys_three) 0 42 (World.init mem_five) aid_zero
      (by decide)).1 (by decide)⟩,
   ⟨by decide,
    (C8_instance_invariant (env_ok sys_three) 0 42 (World.init mem_five) aid_borrowed
      (by decide)).2 (by decide)⟩⟩

/-- The join and release actions `abt_io_finalize` performs for one
stream. -/
theorem finalize_loop_trace (arr : XArray) :
    ∀ (k i : Nat) (w : World), i + k ≤ arr.elems.length →
      ∃ w1 : World, finalize_loop (some arr) i k w = some w1 ∧
        w1.trace = w.trace ++ ((arr.elems.drop i).take k).flatMap
          (fun x => [Event.xstream_join x.handle, Event.xstream_free x.handle]) := by
  intro k
  induction k with
  | zero =>
    intro i w _
    exact ⟨w, rfl, by simp⟩
  | succ k ih =>
    intro i w hle
    have hi : i < arr.elems.length := by omega
    obtain ⟨w1, h1, t1⟩ := ih (i + 1)
      ((w.emit (Event.xstream_join arr.elems[i].handle)).emit
        (Event.xstream_free arr.elems[i].handle)) (by omega)
    refine ⟨w1, ?_, ?_⟩
    · simp only [finalize_loop, List.getElem?_eq_getElem hi]
      exact h1
    · rw [t1, List.drop_eq_getElem_cons hi]
      simp only [World.emit, List.take_succ_cons, List.flatMap_cons, List.append_assoc,
        List.cons_append, List.nil_append]

/-- C9: for an instance returned by `abt_io_init(n)` with `n > 0`,
`abt_io_finalize` performs, for the indices 0, 1, ..., n-1 in this order, the
join of the stream created at that index followed by its release, then frees
the array and the instance, and nothing else; for an instance returned by
`abt_io_init(0)` or by `abt_io_init_pool(p)` it only frees the instance: no
stream is joined or released and no pool is released. -/
theorem C9_finalize_streams (env : Env) (n : Int) (p : Nat) (w w1 : World)
    (aid : abt_io_instance) (hn : inRange 32 n) :
    (0 < n → (abt_io_init env n w).1 = some aid →
      ∃ arr : Nat, aid.progress_xstreams.map XArray.addr = some arr ∧
        (abt_io_finalize aid w1).map World.trace = some (w1.trace ++
          (List.range n.toNat).flatMap (fun i =>
            [Event.xstream_join (env.snoozer_xstream_create.snd.snd i),
             Event.xstream_free (env.snoozer_xstream_create.snd.snd i)]) ++
          [Event.free arr, Event.free aid.addr])) ∧
    (((abt_io_init env 0 w).1 = some aid ∨ (abt_io_init_pool env p w).1 = some aid) →
      (abt_io_finalize aid w1).map World.trace = some (w1.trace ++ [Event.free aid.addr])) := by
  constructor
  · intro hpos h
    obtain ⟨a, arr, rfl⟩ := abt_io_init_pos env n w aid hn hpos h
    refine ⟨arr, rfl, ?_⟩
    have h1 : n ≠ 0 := by omega
    obtain ⟨w2, hl, ht⟩ := finalize_loop_trace
      { addr := arr,
        elems := (List.range n.toNat).map (fun i =>
          ({ handle := env.snoozer_xstream_create.snd.snd i,
             main_pool := env.snoozer_xstream_create.snd.fst } : Xstream)) }
      n.toNat 0 w1 (by simp)
    simp only [abt_io_finalize, h1, ne_eq, not_false_eq_true, if_true, hl, Option.map_some',
      World.emit, ht, List.drop_zero]
    rw [List.take_of_length_le (by simp), List.flatMap_map]
    simp
  · intro h
    rcases h with h | h
    · obtain ⟨a, rfl⟩ := abt_io_init_zero env w aid h
      simp [abt_io_finalize, World.emit]
    · obtain ⟨a, rfl⟩ := abt_io_init_pool_some env p w aid h
      simp [abt_io_finalize, World.emit]

/-- Witness for C9: finalizing the instances of `abt_io_init(2)`,
`abt_io_init(0)` and `abt_io_init_pool(42)`. -/
theorem C9_finalize_streams_witness :
    (inRange 32 2 ∧ (0 : Int) < 2 ∧
     (abt_io_init (env_ok sys_three) 2 (World.init mem_five)).1 = some aid_two ∧
     ∃ arr : Nat, aid_two.progress_xstreams.map XArray.addr = some arr ∧
       (abt_io_finalize aid_two (World.init mem_five)).map World.trace = some
         ((World.init mem_five).trace ++
          (List.range (2 : Int).toNat).flatMap (fun i =>
            [Event.xstream_join ((env_ok sys_three).snoozer_xstream_create.snd.snd i),
             Event.xstream_free ((env_ok sys_three).snoozer_xstream_create.snd.snd i)]) ++
          [Event.free arr, Event.free aid_two.addr])) ∧
    ((abt_io_init (env_ok sys_three) 0 (World.init mem_five)).1 = some aid_zero ∧
     (abt_io_finalize aid_zero (World.init mem_five)).map World.trace
       = some [Event.free 5000]) ∧
    ((abt_io_init_pool (env_ok sys_three) 42 (World.init mem_five)).1 = some aid_borrowed ∧
     (abt_io_finalize aid_borrowed (World.init mem_five)).map World.trace
       = some [Event.free 5000]) :=
  ⟨⟨by decide, by decide, by decide,
    (C9_finalize_streams (env_ok sys_three) 2 42 (World.init mem_five) (World.init mem_five)
      aid_two (by decide)).1 (by decide) (by decide)⟩,
   ⟨by decide,
    (C9_finalize_streams (env_ok sys_three) 0 42 (World.init mem_five) (World.init mem_five)
      aid_zero (by decide)).2 (Or.inl (by decide))⟩,
   ⟨by decide,
    (C9_finalize_streams (env_ok sys_three) 0 42 (World.init mem_five) (World.init mem_five)
      aid_borrowed (by decide)).2 (Or.inr (by decide))⟩⟩

/-- The trace of finalizing the two-stream instance, spelled out. -/
theorem finalize_two_trace :
    (abt_io_finalize aid_two (World.init mem_five)).map World.trace = some
      [Event.xstream_join 100, Event.xstream_free 100,
       Event.xstream_join 101, Event.xstream_free 101,
       Event.free 6000, Event.free 5000] := by
  decide

/-! ## Order of slot stores and signal -/

/-- The trace of a task body on a kernel answer that fits the C types. -/
theorem abt_io_fn_trace (env : Env) (state : OpState) (w : World)
    (hr : inRange state.call.slotBits (env.sys state.call).r)
    (he : inRange 32 (env.sys state.call).errno)
    (hmin : (env.sys state.call).r < 0 → (env.sys state.call).errno ≠ -(2 ^ 31)) :
    (abt_io_fn env state w).trace =
      w.trace ++ [Event.syscall state.call,
        Event.slot_write Writer.task state.ret (env.sys state.call).r] ++
      (if (env.sys state.call).r < 0 then
        [Event.slot_write Writer.task state.ret (-(env.sys state.call).errno)] else []) ++
      [Event.eventual_set state.eventual] := by
  have h1 := wrapSigned_slot state.call _ hr
  by_cases hneg : (env.sys state.call).r < 0
  · have h2 := wrapSigned_int _ (inRange_neg_errno _ he (hmin hneg))
    have h3 := wrapSigned_slot state.call _
      (inRange_slot_of_int state.call _ (inRange_neg_errno _ he (hmin hneg)))
    simp [abt_io_fn, World.store, World.emit, h1, h2, h3, hneg]
  · simp [abt_io_fn, World.store, World.emit, h1, hneg]

/-- C10 as stated fails: in a synchronous `issue_close` whose task runs and
whose `close` fails with `ENOENT`, the slot is stored into three times before
the signal (`-ENOSYS` by the issue procedure, then `-1` and `-ENOENT` by the
task), not once. -/
theorem C10_counterexample :
    slot_and_signal (issue (env_ok sys_enoent) 9 none (Call.CLOSE 4) 50
        (World.init mem_five)).world.trace =
      [Event.slot_write Writer.issue 50 (-ENOSYS), Event.slot_write Writer.task 50 (-1),
       Event.slot_write Writer.task 50 (-ENOENT), Event.eventual_set (some 7)] ∧
    ¬ ((issue (env_ok sys_enoent) 9 none (Call.CLOSE 4) 50
        (World.init mem_five)).world.trace.filter Event.is_slot_write).length = 1 := by
  decide

/-- The trace of a task body of another operation: nothing in it concerns
the slot at `ret` or the notifier `e`. -/
theorem abt_io_fn_trace_other (env : Env) (state : OpState) (w : World) (ret e : Nat)
    (h1 : state.ret ≠ ret) (h2 : state.eventual ≠ some e) :
    ∃ T : List Event, (abt_io_fn env state w).trace = w.trace ++ T ∧
      slot_and_signal_of ret e T = [] := by
  by_cases hneg : wrapSigned state.call.slotBits (env.sys state.call).r < 0
  · refine ⟨[Event.syscall state.call,
      Event.slot_write Writer.task state.ret
        (wrapSigned state.call.slotBits (env.sys state.call).r),
      Event.slot_write Writer.task state.ret
        (wrapSigned state.call.slotBits (wrapSigned 32 (-(env.sys state.call).errno))),
      Event.eventual_set state.eventual], ?_, ?_⟩
    · simp [abt_io_fn, World.store, World.emit, hneg]
    · simp [slot_and_signal_of, Event.concerns, h1, h2]
  · refine ⟨[Event.syscall state.call,
      Event.slot_write Writer.task state.ret
        (wrapSigned state.call.slotBits (env.sys state.call).r),
      Event.eventual_set state.eventual], ?_, ?_⟩
    · simp [abt_io_fn, World.store, World.emit, hneg]
    · simp [slot_and_signal_of, Event.concerns, h1, h2]

/-- Running the task bodies of other operations appends a stretch of trace
that is empty when there are none, and that does not concern the slot at `ret`
or the notifier `e` when none of them uses these. -/
theorem run_tasks_trace_other (env : Env) (ret e : Nat) (l : List Task) :
    ∀ w : World, ∃ T : List Event,
      (l.foldl (fun acc t => abt_io_fn env t.arg acc) w).trace = w.trace ++ T ∧
      (l = [] → T = []) ∧
      ((∀ t ∈ l, t.arg.ret ≠ ret ∧ t.arg.eventual ≠ some e) →
        slot_and_signal_of ret e T = []) := by
  induction l with
  | nil =>
    intro w
    exact ⟨[], by simp, fun _ => rfl, fun _ => rfl⟩
  | cons t l ih =>
    intro w
    obtain ⟨T2, h2, -, q2⟩ := ih (abt_io_fn env t.arg w)
    by_cases hf : t.arg.ret ≠ ret ∧ t.arg.eventual ≠ some e
    · obtain ⟨T1, h1, q1⟩ := abt_io_fn_trace_other env t.arg w ret e hf.1 hf.2
      refine ⟨T1 ++ T2, ?_, ?_, ?_⟩
      · simp only [List.foldl_cons, h2, h1, List.append_assoc]
      · intro hnil
        cases hnil
      · intro hall
        have q2a := q2 (fun t1 ht1 => hall t1 (List.mem_cons_of_mem _ ht1))
        simp only [slot_and_signal_of, List.filter_append] at *
        rw [q1, q2a]
        rfl
    · obtain ⟨T1, h1, -⟩ := abt_io_fn_trace_quiet env t.arg w
      refine ⟨T1 ++ T2, ?_, ?_, ?_⟩
      · simp only [List.foldl_cons, h2, h1, List.append_assoc]
      · intro hnil
        cases hnil
      · intro hall
        exact absurd (hall t (List.mem_cons_self _ _)) hf

/-- Running the pending tasks when the task of the operation is the youngest
of them: the stretch of trace of the older ones, then the trace of its own
task body. -/
theorem run_pending_own (env : Env) (call : Call) (ret e : Nat) (pool : Nat)
    (older : List Task) (w0 : World)
    (hpend : w0.pending = older ++
      [{ pool := pool, arg := { ret := ret, call := call, eventual := some e } }])
    (hr : inRange call.slotBits (env.sys call).r)
    (he : inRange 32 (env.sys call).errno)
    (hmin : (env.sys call).r < 0 → (env.sys call).errno ≠ -(2 ^ 31)) :
    ∃ T : List Event,
      (run_pending env w0).trace =
        w0.trace ++ T ++
          ([Event.syscall call, Event.slot_write Writer.task ret (env.sys call).r] ++
           (if (env.sys call).r < 0 then
              [Event.slot_write Writer.task ret (-(env.sys call).errno)] else []) ++
           [Event.eventual_set (some e)]) ∧
      (older = [] → T = []) ∧
      ((∀ t ∈ older, t.arg.ret ≠ ret ∧ t.arg.eventual ≠ some e) →
        slot_and_signal_of ret e T = []) := by
  obtain ⟨T, hT, hnil, hq⟩ := run_tasks_trace_other env ret e older { w0 with pending := [] }
  have key := abt_io_fn_trace env { ret := ret, call := call, eventual := some e }
    (older.foldl (fun acc t => abt_io_fn env t.arg acc) { w0 with pending := [] }) hr he hmin
  refine ⟨T, ?_, hnil, hq⟩
  simp only [run_pending, hpend, List.foldl_append, List.foldl_cons, List.foldl_nil]
  rw [key, hT]
  simp only [List.append_assoc]

/-- The world a synchronous issue ends in when its task ran: the pending tasks
have run on the world in which the issue procedure had stored `-ENOSYS`,
created the notifier, submitted the task and started to wait; after a failed
wait the issue procedure then stores `-EINVAL` and releases the notifier. -/
theorem issue_sync_ran_trace (env : Env) (pool : Nat) (call : Call) (ret : Nat) (w : World)
    (hc : env.eventual_create.1 = ABT_SUCCESS) (ht : env.task_create = ABT_SUCCESS)
    (hrun : env.eventual_wait = ABT_SUCCESS ∨ env.ran_before_failed_wait = true) :
    ∃ w0 : World,
      (issue env pool none call ret w).world.trace =
        (run_pending env w0).trace ++
          (if env.eventual_wait = ABT_SUCCESS then []
           else [Event.slot_write Writer.issue ret (-EINVAL),
                 Event.eventual_free env.eventual_create.2]) ∧
      w0.trace = w.trace ++
        [Event.slot_write Writer.issue ret (-ENOSYS),
         Event.eventual_create env.eventual_create.2,
         Event.task_create pool env.stack_state,
         Event.eventual_wait (some env.eventual_create.2)] ∧
      w0.pending = w.pending ++
        [{ pool := pool,
           arg := { ret := ret, call := call, eventual := some env.eventual_create.2 } }] := by
  have h1 := wrapSigned_const call (-ENOSYS) (by decide)
  have h3 := wrapSigned_const call (-EINVAL) (by decide)
  by_cases hw : env.eventual_wait = ABT_SUCCESS
  · obtain ⟨w0, h0, htr, hpend, -⟩ := issue_sync_ok_world env pool call ret w hc ht hw
    exact ⟨w0, by simp [h0, Outcome.world, hw], htr, hpend⟩
  · have hran : env.ran_before_failed_wait = true := by
      rcases hrun with h | h
      · exact absurd h hw
      · exact h
    refine ⟨{ mem := fun a => if a = ret then -ENOSYS else w.mem a,
              pending := w.pending ++
                [{ pool := pool,
                   arg := { ret := ret, call := call,
                            eventual := some env.eventual_create.2 } }],
              trace := w.trace ++
                [Event.slot_write Writer.issue ret (-ENOSYS),
                 Event.eventual_create env.eventual_create.2,
                 Event.task_create pool env.stack_state,
                 Event.eventual_wait (some env.eventual_create.2)] }, ?_, rfl, rfl⟩
    simp [issue, pstate_of, ABT_eventual_wait, hc, ht, hw, hran, issue_err, Outcome.world,
      World.emit, World.store, h1, h3]

/-- The world a deferred operation is in after `abt_io_op_wait` when its task
ran: the pending tasks have run on the world in which the issue procedure had
stored `-ENOSYS`, created the notifier and submitted the task, and the caller
had started to wait. -/
theorem issue_then_wait_ran (env : Env) (pool : Nat) (h : abt_io_op) (call : Call)
    (ret : Nat) (w : World) (p : Nat)
    (hp : env.malloc_pstate = some p)
    (hc : env.eventual_create.1 = ABT_SUCCESS) (ht : env.task_create = ABT_SUCCESS)
    (hrun : env.eventual_wait = ABT_SUCCESS ∨ env.ran_before_failed_wait = true) :
    ∃ (w0 : World) (rc : Int),
      issue_then_wait env pool h call ret w = some (rc, run_pending env w0) ∧
      w0.trace = w.trace ++
        [Event.slot_write Writer.issue ret (-ENOSYS),
         Event.eventual_create env.eventual_create.2,
         Event.task_create pool p,
         Event.eventual_wait (some env.eventual_create.2)] ∧
      w0.pending = w.pending ++
        [{ pool := pool,
           arg := { ret := ret, call := call, eventual := some env.eventual_create.2 } }] := by
  have h1 := wrapSigned_const call (-ENOSYS) (by decide)
  by_cases hw : env.eventual_wait = ABT_SUCCESS
  · simp only [issue_then_wait, issue, pstate_of, hp, hc, ht, ne_eq, not_true_eq_false,
      if_false, if_true, abt_io_op_wait, ABT_eventual_wait, hw]
    refine ⟨_, _, rfl, ?_, ?_⟩
    · simp [World.emit, World.store, h1]
    · simp [World.emit, World.store]
  · have hran : env.ran_before_failed_wait = true := by
      rcases hrun with h | h
      · exact absurd h hw
      · exact h
    simp only [issue_then_wait, issue, pstate_of, hp, hc, ht, ne_eq, not_true_eq_false,
      if_false, if_true, abt_io_op_wait, ABT_eventual_wait, hw, hran]
    refine ⟨_, _, rfl, ?_, ?_⟩
    · simp [World.emit, World.store, h1]
    · simp [World.emit, World.store]

/-- C10 amended: take any world, with any history, in which the other
operations in flight use other slots and other notifiers, and an operation
whose notifier is created and whose task is submitted and runs (before a
synchronous wait returns, or before `abt_io_op_wait` returns after a deferred
issue; the wait may succeed or fail), on a kernel answer that fits the C
types.  The stores into its slot and the signals of its notifier that the
operation adds to the trace are exactly: the store of `-ENOSYS` by the issue
procedure, the store of the kernel return by the task, for a negative return
the store of the negated errno by the task, and then the single signal; so
each of these stores precedes the one signal.  The only store that follows the
signal is the `-EINVAL` of a synchronous issue whose wait fails.  With nothing
else in flight these are all the slot stores and signals added. -/
theorem C10_stores_before_signal (env : Env) (pool : Nat) (h : abt_io_op) (call : Call)
    (ret : Nat) (w : World)
    (hc : env.eventual_create.1 = ABT_SUCCESS) (ht : env.task_create = ABT_SUCCESS)
    (hrun : env.eventual_wait = ABT_SUCCESS ∨ env.ran_before_failed_wait = true)
    (hr : inRange call.slotBits (env.sys call).r)
    (he : inRange 32 (env.sys call).errno)
    (hmin : (env.sys call).r < 0 → (env.sys call).errno ≠ -(2 ^ 31))
    (hfresh : ∀ t ∈ w.pending,
      t.arg.ret ≠ ret ∧ t.arg.eventual ≠ some env.eventual_create.2) :
    slot_and_signal_of ret env.eventual_create.2
        (new_events w (issue env pool none call ret w).world) =
      operation_stores (env.sys call) ret env.eventual_create.2 ++
        (if env.eventual_wait = ABT_SUCCESS then []
         else [Event.slot_write Writer.issue ret (-EINVAL)]) ∧
    (env.malloc_pstate ≠ none →
      (issue_then_wait env pool h call ret w).map
          (fun r => slot_and_signal_of ret env.eventual_create.2 (new_events w r.2)) =
        some (operation_stores (env.sys call) ret env.eventual_create.2)) ∧
    (w.pending = [] →
      slot_and_signal (new_events w (issue env pool none call ret w).world) =
        operation_stores (env.sys call) ret env.eventual_create.2 ++
          (if env.eventual_wait = ABT_SUCCESS then []
           else [Event.slot_write Writer.issue ret (-EINVAL)]) ∧
      (env.malloc_pstate ≠ none →
        (issue_then_wait env pool h call ret w).map
            (fun r => slot_and_signal (new_events w r.2)) =
          some (operation_stores (env.sys call) ret env.eventual_create.2))) := by
  obtain ⟨w0, hs, htr0, hpend0⟩ := issue_sync_ran_trace env pool call ret w hc ht hrun
  obtain ⟨T, hT, hnil, hq⟩ := run_pending_own env call ret env.eventual_create.2 pool
    w.pending w0 hpend0 hr he hmin
  have hsync : new_events w (issue env pool none call ret w).world =
      [Event.slot_write Writer.issue ret (-ENOSYS),
       Event.eventual_create env.eventual_create.2,
       Event.task_create pool env.stack_state,
       Event.eventual_wait (some env.eventual_create.2)] ++ T ++
      ([Event.syscall call, Event.slot_write Writer.task ret (env.sys call).r] ++
       (if (env.sys call).r < 0 then
          [Event.slot_write Writer.task ret (-(env.sys call).errno)] else []) ++
       [Event.eventual_set (some env.eventual_create.2)]) ++
      (if env.eventual_wait = ABT_SUCCESS then []
       else [Event.slot_write Writer.issue ret (-EINVAL),
             Event.eventual_free env.eventual_create.2]) := by
    simp only [new_events, hs, hT, htr0, List.append_assoc, List.drop_left]
  have hdef : ∀ p : Nat, env.malloc_pstate = some p →
      ∃ (T1 : List Event) (r : Int × World),
        issue_then_wait env pool h call ret w = some r ∧
        new_events w r.2 =
          [Event.slot_write Writer.issue ret (-ENOSYS),
           Event.eventual_create env.eventual_create.2,
           Event.task_create pool p,
           Event.eventual_wait (some env.eventual_create.2)] ++ T1 ++
          ([Event.syscall call, Event.slot_write Writer.task ret (env.sys call).r] ++
           (if (env.sys call).r < 0 then
              [Event.slot_write Writer.task ret (-(env.sys call).errno)] else []) ++
           [Event.eventual_set (some env.eventual_create.2)]) ∧
        (w.pending = [] → T1 = []) ∧
        ((∀ t ∈ w.pending,
            t.arg.ret ≠ ret ∧ t.arg.eventual ≠ some env.eventual_create.2) →
          slot_and_signal_of ret env.eventual_create.2 T1 = []) := by
    intro p hp
    obtain ⟨w1, rc, hd, htr1, hpend1⟩ :=
      issue_then_wait_ran env pool h call ret w p hp hc ht hrun
    obtain ⟨T1, hT1, hnil1, hq1⟩ := run_pending_own env call ret env.eventual_create.2 pool
      w.pending w1 hpend1 hr he hmin
    refine ⟨T1, (rc, run_pending env w1), hd, ?_, hnil1, hq1⟩
    simp only [new_events, hT1, htr1, List.append_assoc, List.drop_left]
  have hqT : List.filter (Event.concerns ret env.eventual_create.2) T = [] := hq hfresh
  refine ⟨?_, ?_, ?_⟩
  · rw [hsync]
    by_cases hneg : (env.sys call).r < 0 <;> by_cases hw : env.eventual_wait = ABT_SUCCESS <;>
      simp [slot_and_signal_of, List.filter_append, hqT, Event.concerns, operation_stores,
        hneg, hw]
  · intro hp
    obtain ⟨p, hp⟩ := Option.ne_none_iff_exists'.mp hp
    obtain ⟨T1, r, hd, hn, -, hq1⟩ := hdef p hp
    have hqT1 : List.filter (Event.concerns ret env.eventual_create.2) T1 = [] := hq1 hfresh
    rw [hd, Option.map_some', hn]
    by_cases hneg : (env.sys call).r < 0 <;>
      simp [slot_and_signal_of, List.filter_append, hqT1, Event.concerns, operation_stores,
        hneg]
  · intro hempty
    constructor
    · rw [hsync, hnil hempty]
      by_cases hneg : (env.sys call).r < 0 <;> by_cases hw : env.eventual_wait = ABT_SUCCESS <;>
        simp [slot_and_signal, Event.is_slot_write, Event.is_signal, operation_stores,
          hneg, hw]
    · intro hp
      obtain ⟨p, hp⟩ := Option.ne_none_iff_exists'.mp hp
      obtain ⟨T1, r, hd, hn, hnil1, -⟩ := hdef p hp
      rw [hd, Option.map_some', hn, hnil1 hempty]
      by_cases hneg : (env.sys call).r < 0 <;>
        simp [slot_and_signal, Event.is_slot_write, Event.is_signal, operation_stores, hneg]

/-- Witness for C10 amended, from a world with history and another operation
in flight: a synchronous `issue_close` on a kernel that fails with `ENOENT`,
with a successful wait and with a wait that fails after the task ran, and a
deferred `issue_close` whose `abt_io_op_wait` fails after the task ran; and,
from a world with nothing in flight, a deferred `issue_close` whose wait
succeeds. -/
theorem C10_stores_before_signal_witness :
    (∀ t ∈ world_busy.pending, t.arg.ret ≠ 50 ∧ t.arg.eventual ≠ some 7) ∧
    slot_and_signal_of 50 7
        (new_events world_busy
          (issue (env_ok sys_enoent) 9 none (Call.CLOSE 4) 50 world_busy).world) =
      [Event.slot_write Writer.issue 50 (-ENOSYS), Event.slot_write Writer.task 50 (-1),
       Event.slot_write Writer.task 50 (-ENOENT), Event.eventual_set (some 7)] ∧
    ((env_wait_fails_late sys_enoent).eventual_wait ≠ ABT_SUCCESS ∧
     (env_wait_fails_late sys_enoent).ran_before_failed_wait = true ∧
     slot_and_signal_of 50 7
        (new_events world_busy
          (issue (env_wait_fails_late sys_enoent) 9 none (Call.CLOSE 4) 50 world_busy).world) =
      [Event.slot_write Writer.issue 50 (-ENOSYS), Event.slot_write Writer.task 50 (-1),
       Event.slot_write Writer.task 50 (-ENOENT), Event.eventual_set (some 7),
       Event.slot_write Writer.issue 50 (-EINVAL)]) ∧
    ((env_wait_fails_late sys_three).malloc_pstate ≠ none ∧
     (issue_then_wait (env_wait_fails_late sys_three) 9 op_fresh (Call.CLOSE 4) 50
        world_busy).map (fun r => slot_and_signal_of 50 7 (new_events world_busy r.2)) =
      some [Event.slot_write Writer.issue 50 (-ENOSYS), Event.slot_write Writer.task 50 3,
       Event.eventual_set (some 7)]) ∧
    ((World.init mem_five).pending = [] ∧ (env_ok sys_enoent).malloc_pstate ≠ none ∧
     (issue_then_wait (env_ok sys_enoent) 9 op_fresh (Call.CLOSE 4) 50
        (World.init mem_five)).map
        (fun r => slot_and_signal (new_events (World.init mem_five) r.2)) =
      some [Event.slot_write Writer.issue 50 (-ENOSYS), Event.slot_write Writer.task 50 (-1),
       Event.slot_write Writer.task 50 (-ENOENT), Event.eventual_set (some 7)]) :=
  ⟨by decide,
   (C10_stores_before_signal (env_ok sys_enoent) 9 op_fresh (Call.CLOSE 4) 50 world_busy
     rfl rfl (Or.inl rfl) (by decide) (by decide) (by decide) (by decide)).1,
   ⟨by decide, rfl,
    (C10_stores_before_signal (env_wait_fails_late sys_enoent) 9 op_fresh (Call.CLOSE 4) 50
      world_busy rfl rfl (Or.inr rfl) (by decide) (by decide) (by decide) (by decide)).1⟩,
   ⟨by decide,
    (C10_stores_before_signal (env_wait_fails_late sys_three) 9 op_fresh (Call.CLOSE 4) 50
      world_busy rfl rfl (Or.inr rfl) (by decide) (by decide) (by decide) (by decide)).2.1
      (by decide)⟩,
   ⟨rfl, by decide,
    ((C10_stores_before_signal (env_ok sys_enoent) 9 op_fresh (Call.CLOSE 4) 50
      (World.init mem_five) rfl rfl (Or.inl rfl) (by decide) (by decide) (by decide)
      (by decide)).2.2 rfl).2 (by decide)⟩⟩

/-- The whole trace of the synchronous sample operation from the busy world,
spelled out: the history, the issue procedure, the older task, its own task. -/
theorem busy_sync_trace :
    (issue (env_ok sys_enoent) 9 none (Call.CLOSE 4) 50 world_busy).world.trace =
      [Event.slot_write Writer.task 50 3, Event.eventual_set (some 5),
       Event.slot_write Writer.issue 50 (-ENOSYS), Event.eventual_create 7,
       Event.task_create 9 1000, Event.eventual_wait (some 7),
       Event.syscall (Call.CLOSE 8), Event.slot_write Writer.task 51 (-1),
       Event.slot_write Writer.task 51 (-ENOENT), Event.eventual_set (some 6),
       Event.syscall (Call.CLOSE 4), Event.slot_write Writer.task 50 (-1),
       Event.slot_write Writer.task 50 (-ENOENT), Event.eventual_set (some 7)] := by
  decide

/-! ## Handles -/

/-- The last action of a task body is the signal of the notifier of its
record. -/
theorem abt_io_fn_signals (env : Env) (state : OpState) (w : World) :
    (abt_io_fn env state w).trace.getLast? = some (Event.eventual_set state.eventual) := by
  simp [abt_io_fn, World.emit]

/-- What a deferred issue that returns 0 has done: the record and the notifier
exist, the task was submitted, and the envelope is filled in. -/
theorem issue_deferred_ok (env : Env) (pool : Nat) (h : abt_io_op) (call : Call) (ret : Nat)
    (w w1 : World) (res : Option abt_io_op)
    (hs : issue env pool (some h) call ret w = Outcome.returned (0, res) w1) :
    ∃ p : Nat, env.malloc_pstate = some p ∧
      res = some { addr := h.addr, e := some env.eventual_create.2, state := some p,
                   free_fn := some FreeFn.libc_free } ∧
      w1.pending = w.pending ++
        [{ pool := pool,
           arg := { ret := ret, call := call, eventual := some env.eventual_create.2 } }] ∧
      w1.trace = w.trace ++
        [Event.slot_write Writer.issue ret (-ENOSYS),
         Event.eventual_create env.eventual_create.2, Event.task_create pool p] := by
  have hk := wrapSigned_const call (-ENOSYS) (by decide)
  cases hp : env.malloc_pstate with
  | none => simp [issue, pstate_of, hp, issue_err] at hs
  | some p =>
    by_cases hc : env.eventual_create.1 = ABT_SUCCESS
    · by_cases ht : env.task_create = ABT_SUCCESS
      · simp [issue, pstate_of, hp, hc, ht, World.emit, World.store] at hs
        obtain ⟨h1, h2⟩ := hs
        subst h1
        subst h2
        exact ⟨p, rfl, rfl, rfl, by simp [hk]⟩
      · simp [issue, pstate_of, hp, hc, ht, issue_err] at hs
    · simp [issue, pstate_of, hp, hc, issue_err] at hs

/-- C11: when a deferred issue returns 0, the handle it filled in holds the
notifier of the record of the submitted task (the one the task body signals as
its last action), the address `malloc` returned for the record, and libc
`free` as release callback; and `abt_io_op_free` on that handle performs
exactly `ABT_eventual_free` of that notifier, `free` of the record through the
callback, and `free` of the envelope, in this order, each once. -/
theorem C11_deferred_handle (env : Env) (pool : Nat) (h : abt_io_op) (call : Call)
    (ret : Nat) (w w1 : World) (res : Option abt_io_op)
    (hs : issue env pool (some h) call ret w = Outcome.returned (0, res) w1) :
    ∃ (p : Nat) (h1 : abt_io_op) (t : Task),
      env.malloc_pstate = some p ∧ res = some h1 ∧ h1.addr = h.addr ∧
      w1.pending = w.pending ++ [t] ∧
      new_events w w1 =
        [Event.slot_write Writer.issue ret (-ENOSYS),
         Event.eventual_create env.eventual_create.2, Event.task_create pool p] ∧
      t.pool = pool ∧ t.arg.ret = ret ∧ t.arg.call = call ∧
      h1.e = t.arg.eventual ∧ h1.e = some env.eventual_create.2 ∧
      (∀ w2 : World,
        (abt_io_fn env t.arg w2).trace.getLast? = some (Event.eventual_set h1.e)) ∧
      h1.state = some p ∧ h1.free_fn = some FreeFn.libc_free ∧
      (∀ w2 : World, (abt_io_op_free h1 w2).map World.trace =
        some (w2.trace ++
          [Event.eventual_free env.eventual_create.2, Event.free p, Event.free h.addr])) := by
  obtain ⟨p, hp, hres, hpend, htr⟩ := issue_deferred_ok env pool h call ret w w1 res hs
  refine ⟨p, _, _, hp, hres, rfl, hpend, ?_, rfl, rfl, rfl, rfl, rfl, ?_, rfl, rfl, ?_⟩
  · simp [new_events, htr]
  · intro w2
    exact abt_io_fn_signals env _ w2
  · intro w2
    simp [abt_io_op_free, FreeFn.call, World.emit]

/-- Witness for C11: a deferred `issue_pwrite` in an environment where every
call succeeds, and `abt_io_op_free` on the handle it returns. -/
theorem C11_deferred_handle_witness :
    ∃ w1 : World,
      issue (env_ok sys_three) 9 op_fresh (Call.PWRITE 4 60 3 0) 50 (World.init mem_five) =
        Outcome.returned
          (0, some { addr := 4000, e := some 7, state := some 3000,
                     free_fn := some FreeFn.libc_free }) w1 ∧
      ∃ (p : Nat) (h1 : abt_io_op) (t : Task),
        (env_ok sys_three).malloc_pstate = some p ∧
        some ({ addr := 4000, e := some 7, state := some 3000,
                free_fn := some FreeFn.libc_free } : abt_io_op) = some h1 ∧
        h1.addr = op_fresh.addr ∧
        w1.pending = (World.init mem_five).pending ++ [t] ∧
        new_events (World.init mem_five) w1 =
          [Event.slot_write Writer.issue 50 (-ENOSYS),
           Event.eventual_create (env_ok sys_three).eventual_create.2,
           Event.task_create 9 p] ∧
        t.pool = 9 ∧ t.arg.ret = 50 ∧ t.arg.call = Call.PWRITE 4 60 3 0 ∧
        h1.e = t.arg.eventual ∧ h1.e = some (env_ok sys_three).eventual_create.2 ∧
        (∀ w2 : World,
          (abt_io_fn (env_ok sys_three) t.arg w2).trace.getLast?
            = some (Event.eventual_set h1.e)) ∧
        h1.state = some p ∧ h1.free_fn = some FreeFn.libc_free ∧
        (∀ w2 : World, (abt_io_op_free h1 w2).map World.trace =
          some (w2.trace ++
            [Event.eventual_free (env_ok sys_three).eventual_create.2, Event.free p,
             Event.free op_fresh.addr])) :=
  ⟨_, rfl,
   C11_deferred_handle (env_ok sys_three) 9 op_fresh (Call.PWRITE 4 60 3 0) 50
     (World.init mem_five) _ _ rfl⟩

/-- The trace of `abt_io_op_free` on the handle of the sample deferred issue,
spelled out. -/
theorem op_free_sample_trace :
    (abt_io_op_free { addr := 4000, e := some 7, state := some 3000,
                      free_fn := some FreeFn.libc_free } (World.init mem_five)).map World.trace
      = some [Event.eventual_free 7, Event.free 3000, Event.free 4000] := by
  decide

/-! ## Readiness listener -/

/-- Processing a batch is processing its entries one after the other. -/
theorem process_batch_split (env : ListenerEnv) (pre post : List epoll_event)
    (ev : epoll_event) (s : ListenerState) :
    process_batch env (pre ++ ev :: post) s =
      process_batch env post (handle_event env ev (process_batch env pre s)) := by
  simp [process_batch, List.foldl_append]

/-- C12 as stated fails: for an entry whose flags are `EPOLLIN | EPOLLHUP`
the condition variable is signaled, but the descriptor is not closed and the
count is not decremented. -/
theorem C12_counterexample :
    (EPOLLIN ||| EPOLLHUP) &&& EPOLLHUP ≠ 0 ∧
    (handle_event lenv_ok { events := EPOLLIN ||| EPOLLHUP, ptr := ta_five }
        { epfd := 3, numOpenFDs := 1, trace := [] }).trace
      = [ListenerAction.cond_signal 70] ∧
    ¬ (ListenerAction.close 5 ∈
          (handle_event lenv_ok { events := EPOLLIN ||| EPOLLHUP, ptr := ta_five }
            { epfd := 3, numOpenFDs := 1, trace := [] }).trace ∧
       (handle_event lenv_ok { events := EPOLLIN ||| EPOLLHUP, ptr := ta_five }
          { epfd := 3, numOpenFDs := 1, trace := [] }).numOpenFDs = 1 - 1) := by
  decide

/-- C12 amended: every entry of a batch is handled in turn, in the state the
entries before it have left (whose count is an `int` above `INT_MIN`).  If its
flags include `EPOLLIN`, the registered condition variable is signaled and
nothing else happens, whatever the other flags.  If they do not include
`EPOLLIN` but include `EPOLLHUP` or `EPOLLERR`, the descriptor is closed (with
the two diagnostics around it) and the count goes down by one.  Otherwise the
entry changes nothing. -/
theorem C12_batch_entry (env : ListenerEnv) (pre post : List epoll_event) (ev : epoll_event)
    (s : ListenerState)
    (hc : inRange 32 (process_batch env pre s).numOpenFDs)
    (hmin : (process_batch env pre s).numOpenFDs ≠ -(2 ^ 31)) :
    process_batch env (pre ++ ev :: post) s =
      process_batch env post (handle_event env ev (process_batch env pre s)) ∧
    (ev.events &&& EPOLLIN ≠ 0 →
      (handle_event env ev (process_batch env pre s)).trace =
        (process_batch env pre s).trace ++ [ListenerAction.cond_signal ev.ptr.cond] ∧
      (handle_event env ev (process_batch env pre s)).numOpenFDs =
        (process_batch env pre s).numOpenFDs) ∧
    (ev.events &&& EPOLLIN = 0 → ev.events &&& (EPOLLHUP ||| EPOLLERR) ≠ 0 →
      (handle_event env ev (process_batch env pre s)).trace =
        (process_batch env pre s).trace ++
          [ListenerAction.print (Msg.closing_fd ev.ptr.fd), ListenerAction.close ev.ptr.fd] ++
          (if env.close ev.ptr.fd = -1 then [ListenerAction.print Msg.close_error] else []) ∧
      (handle_event env ev (process_batch env pre s)).numOpenFDs =
        (process_batch env pre s).numOpenFDs - 1) ∧
    (ev.events &&& EPOLLIN = 0 → ev.events &&& (EPOLLHUP ||| EPOLLERR) = 0 →
      handle_event env ev (process_batch env pre s) = process_batch env pre s) := by
  have hw : wrapSigned 32 ((process_batch env pre s).numOpenFDs - 1) =
      (process_batch env pre s).numOpenFDs - 1 := by
    apply wrapSigned_int
    simp only [inRange] at *
    omega
  refine ⟨process_batch_split env pre post ev s, ?_, ?_, ?_⟩
  · intro hin
    simp [handle_event, hin, ListenerState.emit]
  · intro hin hup
    by_cases hcl : env.close ev.ptr.fd = -1
    · simp [handle_event, hin, hup, hcl, ListenerState.emit, hw]
    · simp [handle_event, hin, hup, hcl, ListenerState.emit, hw]
  · intro hin hup
    simp [handle_event, hin, hup]

/-- Witness for C12 amended: in the batch `[readable 5, hang-up 6]` the first
entry signals condition variable 70 and the second closes descriptor 6 and
brings the count from 1 to 0. -/
theorem C12_batch_entry_witness :
    (inRange 32 (process_batch lenv_ok [] listener_start).numOpenFDs ∧
     ev_readable.events &&& EPOLLIN ≠ 0 ∧
     (handle_event lenv_ok ev_readable (process_batch lenv_ok [] listener_start)).trace =
       [ListenerAction.cond_signal 70] ∧
     (handle_event lenv_ok ev_readable (process_batch lenv_ok [] listener_start)).numOpenFDs
       = 1) ∧
    (inRange 32 (process_batch lenv_ok [ev_readable] listener_start).numOpenFDs ∧
     ev_hangup.events &&& EPOLLIN = 0 ∧ ev_hangup.events &&& (EPOLLHUP ||| EPOLLERR) ≠ 0 ∧
     (handle_event lenv_ok ev_hangup
        (process_batch lenv_ok [ev_readable] listener_start)).trace =
       [ListenerAction.cond_signal 70, ListenerAction.print (Msg.closing_fd 6),
        ListenerAction.close 6] ∧
     (handle_event lenv_ok ev_hangup
        (process_batch lenv_ok [ev_readable] listener_start)).numOpenFDs = 0) :=
  ⟨⟨by decide, by decide,
    (C12_batch_entry lenv_ok [] [ev_hangup] ev_readable listener_start
      (by decide) (by decide)).2.1 (by decide)⟩,
   ⟨by decide, by decide, by decide,
    (C12_batch_entry lenv_ok [ev_readable] [] ev_hangup listener_start
      (by decide) (by decide)).2.2.1 (by decide) (by decide)⟩⟩

/-- One entry changes the count by as much as it adds closes to the trace, and
by one at most. -/
theorem handle_event_count (env : ListenerEnv) (ev : epoll_event) (s : ListenerState)
    (hc : inRange 32 s.numOpenFDs) (hmin : s.numOpenFDs ≠ -(2 ^ 31)) :
    (handle_event env ev s).numOpenFDs + (closes (handle_event env ev s).trace : Int) =
      s.numOpenFDs + (closes s.trace : Int) ∧
    s.numOpenFDs - 1 ≤ (handle_event env ev s).numOpenFDs ∧
    (handle_event env ev s).numOpenFDs ≤ s.numOpenFDs := by
  have hw : wrapSigned 32 (s.numOpenFDs - 1) = s.numOpenFDs - 1 := by
    apply wrapSigned_int
    simp only [inRange] at *
    omega
  by_cases hin : ev.events &&& EPOLLIN = 0
  · by_cases hup : ev.events &&& (EPOLLHUP ||| EPOLLERR) = 0
    · simp [handle_event, hin, hup]
    · by_cases hcl : env.close ev.ptr.fd = -1
      · simp [handle_event, hin, hup, hcl, ListenerState.emit, hw, closes,
          List.filter_append, ListenerAction.is_close]
      · simp [handle_event, hin, hup, hcl, ListenerState.emit, hw, closes,
          List.filter_append, ListenerAction.is_close]
  · simp [handle_event, hin, ListenerState.emit, closes, List.filter_append,
      ListenerAction.is_close]

/-- A batch changes the count by as much as it adds closes to the trace, and
by its length at most, when the count cannot wrap on the way. -/
theorem process_batch_count (env : ListenerEnv) (evlist : List epoll_event) :
    ∀ s : ListenerState,
      -(2 ^ 31) + (evlist.length : Int) ≤ s.numOpenFDs → s.numOpenFDs < 2 ^ 31 →
      (process_batch env evlist s).numOpenFDs + (closes (process_batch env evlist s).trace : Int)
        = s.numOpenFDs + (closes s.trace : Int) ∧
      s.numOpenFDs - (evlist.length : Int) ≤ (process_batch env evlist s).numOpenFDs ∧
      (process_batch env evlist s).numOpenFDs ≤ s.numOpenFDs := by
  induction evlist with
  | nil =>
    intro s _ _
    simp [process_batch]
  | cons ev evs ih =>
    intro s hlow hhigh
    simp only [List.length_cons, Nat.cast_add, Nat.cast_one] at hlow
    have hc : inRange 32 s.numOpenFDs := by
      simp only [inRange]
      omega
    obtain ⟨e1, e2, e3⟩ := handle_event_count env ev s hc (by omega)
    obtain ⟨b1, b2, b3⟩ := ih (handle_event env ev s) (by omega) (by omega)
    have hstep : process_batch env (ev :: evs) s =
        process_batch env evs (handle_event env ev s) := rfl
    rw [hstep]
    simp only [List.length_cons, Nat.cast_add, Nat.cast_one]
    refine ⟨?_, ?_, ?_⟩ <;> omega

/-- With a count that is not positive the loop returns at once. -/
theorem listener_loop_done (env : ListenerEnv) (results : List PollResult) (s : ListenerState)
    (h : ¬ s.numOpenFDs > 0) : listener_loop env results s = ListenerEnd.returned s := by
  cases results <;> simp [listener_loop, h]

/-- An interrupted wait is retried: it leaves the run as it is without it. -/
theorem listener_loop_eintr (env : ListenerEnv) (more : List PollResult) (s : ListenerState) :
    listener_loop env (PollResult.error EINTR :: more) s = listener_loop env more s := by
  by_cases h : s.numOpenFDs > 0
  · simp [listener_loop, h]
  · rw [listener_loop_done env _ s h, listener_loop_done env _ s h]

/-- An interrupted wait at any place of the sequence of polling results
leaves the run as it is without it. -/
theorem listener_loop_eintr_at (env : ListenerEnv) (k : Nat) :
    ∀ (results : List PollResult) (s : ListenerState),
      listener_loop env ((results.take k) ++ PollResult.error EINTR :: results.drop k) s =
        listener_loop env results s := by
  induction k with
  | zero =>
    intro results s
    simpa using listener_loop_eintr env results s
  | succ k ih =>
    intro results s
    cases results with
    | nil => simpa using listener_loop_eintr env [] s
    | cons r rest =>
      by_cases hpos : s.numOpenFDs > 0
      · cases r with
        | ready evlist =>
          simp only [List.take_succ_cons, List.drop_succ_cons, List.cons_append, listener_loop,
            hpos, if_true]
          exact ih rest _
        | error errno =>
          by_cases h1 : errno = EINTR
          · simp only [List.take_succ_cons, List.drop_succ_cons, List.cons_append,
              listener_loop, hpos, if_true, h1]
            exact ih rest s
          · simp only [List.take_succ_cons, List.drop_succ_cons, List.cons_append,
              listener_loop, hpos, if_true, h1, if_false]
      · rw [listener_loop_done env _ s hpos, listener_loop_done env _ s hpos]

/-- The loop returns only with a count that is not positive. -/
theorem listener_loop_returned_le (env : ListenerEnv) (results : List PollResult) :
    ∀ s s1 : ListenerState, listener_loop env results s = ListenerEnd.returned s1 →
      s1.numOpenFDs ≤ 0 := by
  induction results with
  | nil =>
    intro s s1 h
    by_cases hpos : s.numOpenFDs > 0
    · simp [listener_loop, hpos] at h
    · simp only [listener_loop, hpos, if_false, ListenerEnd.returned.injEq] at h
      subst h
      omega
  | cons r rest ih =>
    intro s s1 h
    by_cases hpos : s.numOpenFDs > 0
    · cases r with
      | ready evlist =>
        simp only [listener_loop, hpos, if_true] at h
        exact ih _ _ h
      | error errno =>
        by_cases h1 : errno = EINTR
        · simp only [listener_loop, hpos, if_true, h1] at h
          exact ih _ _ h
        · simp only [listener_loop, hpos, if_true, h1, if_false] at h
          split_ifs at h
    · rw [listener_loop_done env _ s hpos] at h
      simp only [ListenerEnd.returned.injEq] at h
      subst h
      omega

/-- While no batch is larger than `evlist`, the count stays one minus the
number of descriptors closed. -/
theorem listener_loop_returned_count (env : ListenerEnv) (results : List PollResult) :
    ∀ s s1 : ListenerState,
      (∀ evlist, PollResult.ready evlist ∈ results → evlist.length ≤ max_events) →
      s.numOpenFDs ≤ 1 → s.numOpenFDs + (closes s.trace : Int) = 1 →
      listener_loop env results s = ListenerEnd.returned s1 →
      s1.numOpenFDs + (closes s1.trace : Int) = 1 := by
  induction results with
  | nil =>
    intro s s1 _ _ hsum h
    by_cases hpos : s.numOpenFDs > 0
    · simp [listener_loop, hpos] at h
    · simp only [listener_loop, hpos, if_false, ListenerEnd.returned.injEq] at h
      subst h
      exact hsum
  | cons r rest ih =>
    intro s s1 hb hle hsum h
    have hb1 : ∀ evlist, PollResult.ready evlist ∈ rest → evlist.length ≤ max_events :=
      fun evlist hm => hb evlist (List.mem_cons_of_mem _ hm)
    by_cases hpos : s.numOpenFDs > 0
    · cases r with
      | ready evlist =>
        simp only [listener_loop, hpos, if_true] at h
        have hlen : evlist.length ≤ max_events := hb evlist (List.mem_cons_self _ _)
        simp only [max_events] at hlen
        obtain ⟨b1, -, b3⟩ := process_batch_count env evlist s (by omega) (by omega)
        exact ih _ _ hb1 (by omega) (by omega) h
      | error errno =>
        by_cases h1 : errno = EINTR
        · simp only [listener_loop, hpos, if_true, h1] at h
          exact ih _ _ hb1 hle hsum h
        · simp only [listener_loop, hpos, if_true, h1, if_false] at h
          split_ifs at h
    · rw [listener_loop_done env _ s hpos] at h
      simp only [ListenerEnd.returned.injEq] at h
      subst h
      exact hsum

/-- C13 as stated fails: when one batch reports a hang-up on two descriptors,
`event_listener` closes both and returns with a count of -1, which is neither
zero nor non-negative. -/
theorem C13_counterexample :
    event_listener lenv_ok 3 [PollResult.ready [ev_hangup_five, ev_hangup]] =
      ListenerEnd.returned
        { epfd := 3, numOpenFDs := -1,
          trace := [ListenerAction.print (Msg.closing_fd 5), ListenerAction.close 5,
                    ListenerAction.print (Msg.closing_fd 6), ListenerAction.close 6] } ∧
    ¬ (∀ s : ListenerState,
        event_listener lenv_ok 3 [PollResult.ready [ev_hangup_five, ev_hangup]] =
          ListenerEnd.returned s → s.numOpenFDs = 0 ∧ 0 ≤ s.numOpenFDs) := by
  have h : event_listener lenv_ok 3 [PollResult.ready [ev_hangup_five, ev_hangup]] =
      ListenerEnd.returned
        { epfd := 3, numOpenFDs := -1,
          trace := [ListenerAction.print (Msg.closing_fd 5), ListenerAction.close 5,
                    ListenerAction.print (Msg.closing_fd 6), ListenerAction.close 6] } := by
    decide
  refine ⟨h, ?_⟩
  intro hall
  have h0 := (hall _ h).1
  exact absurd h0 (by decide)

/-- C13 amended: for every sequence of polling results, an interrupted wait
is retried and leaves the run as it is without it; and when `event_listener`
returns, the outstanding-descriptor count is at most zero.  When no batch is
larger than `max_events`, the count it returns with is one minus the number of
descriptors it has closed: zero when it closed one, negative when the last
batch made it close more. -/
theorem C13_listener_return (env : ListenerEnv) (epfd : Int) (results : List PollResult)
    (s : ListenerState)
    (hret : event_listener env epfd results = ListenerEnd.returned s) :
    s.numOpenFDs ≤ 0 ∧
    ((∀ evlist, PollResult.ready evlist ∈ results → evlist.length ≤ max_events) →
      s.numOpenFDs = 1 - (closes s.trace : Int)) ∧
    (∀ (k : Nat) (st : ListenerState),
      listener_loop env ((results.take k) ++ PollResult.error EINTR :: results.drop k) st =
        listener_loop env results st) := by
  refine ⟨listener_loop_returned_le env results _ s hret, ?_, ?_⟩
  · intro hb
    have h := listener_loop_returned_count env results
      { epfd := epfd, numOpenFDs := 1, trace := [] } s hb (by simp) (by simp [closes]) hret
    omega
  · intro k st
    exact listener_loop_eintr_at env k results st

/-- The batches of the sample polling results fit `evlist`. -/
theorem polls_sample_bounded :
    ∀ evlist, PollResult.ready evlist ∈ polls_sample → evlist.length ≤ max_events := by
  intro evlist hm
  simp only [polls_sample, List.mem_cons, PollResult.ready.injEq, List.mem_singleton,
    List.not_mem_nil, or_false, false_or, reduceCtorEq] at hm
  rcases hm with rfl | rfl <;> decide

/-- Witness for C13 amended: on two interrupted waits, a readable descriptor
and one hang-up, `event_listener` returns with count zero after one close. -/
theorem C13_listener_return_witness :
    event_listener lenv_ok 3 polls_sample = ListenerEnd.returned listener_sample_end ∧
    listener_sample_end.numOpenFDs ≤ 0 ∧
    listener_sample_end.numOpenFDs = 1 - (closes listener_sample_end.trace : Int) ∧
    closes listener_sample_end.trace = 1 :=
  ⟨by decide,
   (C13_listener_return lenv_ok 3 polls_sample listener_sample_end (by decide)).1,
   (C13_listener_return lenv_ok 3 polls_sample listener_sample_end (by decide)).2.1
     polls_sample_bounded,
   by decide⟩

end AbtIo
